import Mathlib

/-!
# kjournald: filter criteria model, boot model and the log view window

A shallow embedding of `src/lib/filtercriteriamodel.cpp` and `src/lib/bootmodel.cpp`,
together with a model of the operations that `src/lib/journaldviewmodel.h` declares.

Conventions of the embedding

* Shared and weak pointers to `SelectionEntry` become positions in an immutable tree; a
  `QModelIndex` is the list of rows leading from the entry up to the top level.
* A dereferenced null pointer is the value `none` of an `Option` result.
* Qt signals (`Q_EMIT`), `beginResetModel` / `endResetModel` and logging have no effect on the
  state and are left out.
* Everything the journal library answers (validity of a path, the unique values of a field,
  the boot list), the translation catalogue and the helpers of `JournaldHelper` are fields of
  the structure `Host`.
* A library call that may fail to return, the `std::sort` of `rebuildModel`, answers with an
  `Option`; `rebuildModel` and what calls it return `none` when it does not return.
-/

namespace KJournald

/-! ## Qt value types -/

/-- The enum `FilterCriteriaModel::Category`. -/
inductive Category
  | TRANSPORT
  | PRIORITY
  | SYSTEMD_UNIT
  | EXE
  deriving DecidableEq, Repr

/-- Modelled from the spec: the declaration of `enum Category` is in `filtercriteriamodel.h`,
which is not part of the sources at hand. `rebuildModel` appends the sections Transport,
Priority, Unit, Process in this order and addresses each one as
`mRootItem->child(Category::X)` right after appending it, which fixes the values 0, 1, 2, 3. -/
def Category.toInt : Category → Int
  | .TRANSPORT => 0
  | .PRIORITY => 1
  | .SYSTEMD_UNIT => 2
  | .EXE => 3

/-- The enum `FilterCriteriaModel::Roles`; `other` stands for every integer role that is none of
the five enumerators (the `int role` of `setData` is cast without a check). -/
inductive Roles
  | TEXT
  | DATA
  | LONGTEXT
  | CATEGORY
  | SELECTED
  | other (code : Int)
  deriving DecidableEq, Repr

/-- The values a `QVariant` holds in this program: the invalid variant `QVariant()`, a `bool`,
an `int`, a `QString` or a `Category`. -/
inductive QVariant
  | invalid
  | bool (b : Bool)
  | int (n : Int)
  | string (s : String)
  | category (c : Category)
  deriving DecidableEq, Repr

/-- Value of a decimal digit character. -/
def digitValue (c : Char) : Option Nat :=
  if '0' ≤ c ∧ c ≤ '9' then some (c.toNat - '0'.toNat) else none

/-- Reads a non-empty run of decimal digits, most significant first. -/
def parseDigits : List Char → Nat → Option Nat
  | [], _ => none
  | [c], acc => (digitValue c).map (fun d => 10 * acc + d)
  | c :: rest, acc =>
    match digitValue c with
    | some d => parseDigits rest (10 * acc + d)
    | none => none

/-- Reads an optionally signed decimal integer. -/
def parseInt : List Char → Option Int
  | '-' :: rest => (parseDigits rest 0).map (fun n => - (n : Int))
  | '+' :: rest => (parseDigits rest 0).map (fun n => (n : Int))
  | cs => (parseDigits cs 0).map (fun n => (n : Int))

/-- `QString::toInt()`: surrounding white space is ignored, and the result is 0 when the text
is not a decimal integer or does not fit a 32 bit `int`. -/
def QString.toInt (s : String) : Int :=
  let body := ((s.data.dropWhile Char.isWhitespace).reverse.dropWhile Char.isWhitespace).reverse
  match parseInt body with
  | some n => if -2147483648 ≤ n ∧ n ≤ 2147483647 then n else 0
  | none => 0

/-- `QString::number(int)`: the decimal text of a number. -/
def QString.number (i : Nat) : String := toString i

/-- `QVariant::toBool()`. A string is false when it is empty, "0" or "false". -/
def QVariant.toBool : QVariant → Bool
  | .invalid => false
  | .bool b => b
  | .int n => n != 0
  | .string s => !(s.isEmpty || s == "0" || s.toLower == "false")
  | .category c => c.toInt != 0

/-- `QVariant::toInt()`. -/
def QVariant.toInt : QVariant → Int
  | .invalid => 0
  | .bool b => if b then 1 else 0
  | .int n => n
  | .string s => QString.toInt s
  | .category c => c.toInt

/-- `QVariant::toString()`; a category is rendered as its number. -/
def QVariant.toString : QVariant → String
  | .invalid => ""
  | .bool b => if b then "true" else "false"
  | .int n => ToString.toString n
  | .string s => s
  | .category c => ToString.toString c.toInt

/-- The number that a variant of a numeric type (`bool`, `int` or an enum) stands for when Qt
compares it with a variant of another numeric type. -/
def QVariant.numeric : QVariant → Option Int
  | .bool b => some (if b then 1 else 0)
  | .int n => some n
  | .category c => some c.toInt
  | _ => none

/-- `operator==` of two variants: two invalid variants are equal, two strings are equal when
their texts are, and variants of numeric types (`bool`, `int`, enum) are compared by their
numbers, also across types, so that `QVariant(1) == QVariant(true)`. Every other pair is
unequal. -/
def QVariant.equals : QVariant → QVariant → Bool
  | .invalid, .invalid => true
  | .string s, .string t => decide (s = t)
  | a, b =>
    match a.numeric, b.numeric with
    | some x, some y => decide (x = y)
    | _, _ => false

/-! ## SelectionEntry -/

/-- The class `SelectionEntry`: the fields `mText`, `mData`, `mCategory`, `mSelected` and
`mChildItems`. The weak pointer `mParentItem` is the position of the entry in the tree. -/
inductive SelectionEntry
  | mk (mText : String) (mData : QVariant) (mCategory : Category) (mSelected : Bool)
      (mChildItems : List SelectionEntry)

namespace SelectionEntry

def mText : SelectionEntry → String
  | mk t _ _ _ _ => t

def mData : SelectionEntry → QVariant
  | mk _ d _ _ _ => d

def mCategory : SelectionEntry → Category
  | mk _ _ c _ _ => c

def mSelected : SelectionEntry → Bool
  | mk _ _ _ s _ => s

def mChildItems : SelectionEntry → List SelectionEntry
  | mk _ _ _ _ cs => cs

/-- `SelectionEntry::appendChild`. -/
def appendChild : SelectionEntry → SelectionEntry → SelectionEntry
  | mk t d c s cs, item => mk t d c s (cs ++ [item])

/-- `SelectionEntry::child`: the null pointer for a row out of range. -/
def child (e : SelectionEntry) (row : Int) : Option SelectionEntry :=
  if row < 0 ∨ row ≥ (e.mChildItems.length : Int) then none
  else e.mChildItems[row.toNat]?

/-- `SelectionEntry::childCount`. -/
def childCount (e : SelectionEntry) : Nat := e.mChildItems.length

/-- `SelectionEntry::data`. -/
def data (e : SelectionEntry) : Roles → QVariant
  | .CATEGORY => .category e.mCategory
  | .TEXT => .string e.mText
  | .DATA => e.mData
  | .LONGTEXT => .string e.mText
  | .SELECTED => .bool e.mSelected
  | .other _ => .invalid

/-- `SelectionEntry::setData`: the result flag and the entry afterwards. -/
def setData : SelectionEntry → QVariant → Roles → Bool × SelectionEntry
  | mk t d c s cs, value, role =>
    if role = Roles.SELECTED then (true, mk t d c value.toBool cs)
    else (false, mk t d c s cs)

/-- The entry with the child at `row` replaced (a write through the pointer `child(row)`). -/
def setChild : SelectionEntry → Nat → SelectionEntry → SelectionEntry
  | mk t d c s cs, row, item => mk t d c s (cs.set row item)

end SelectionEntry

/-! ## The host environment -/

/-- The journal a model reads from: `mJournal`. It is the null pointer before the first
assignment, `LocalJournal()` for the system journal and `LocalJournal(path)` otherwise. -/
inductive JournalRef
  | null
  | system
  | atPath (path : String)
  deriving DecidableEq, Repr

/-- The fields of `JournaldHelper::Field` that are queried. -/
inductive Field
  | SYSTEMD_UNIT
  | EXE
  deriving DecidableEq, Repr

/-- One row of the boot list (`JournaldHelper::BootInfo`); times are seconds since the epoch. -/
structure BootInfo where
  mBootId : String
  mSince : Int
  mUntil : Int
  deriving DecidableEq, Repr

/-- `Qt::SortOrder`. -/
inductive SortOrder
  | AscendingOrder
  | DescendingOrder
  deriving DecidableEq, Repr

/-- What the surroundings of the models answer: the journal library (`LocalJournal::isValid`,
`JournaldHelper::queryUnique`, `JournaldHelper::queryOrderedBootIds`), the helper
`JournaldHelper::cleanupString`, the translation `i18nc(context, text)`, the call of `std::sort`
in `rebuildModel`, and `BootModelPrivate::sort`.

`sortCaseInsensitive` is the call `std::sort(begin, end, cmp)` with
`cmp(a, b) = QString::compare(a, b, Qt::CaseInsensitive) <= 0`: the list it leaves, or `none`
when the call does not return. This comparison is not a strict weak ordering (it holds of a
name and itself, and both ways of two names that differ in case only), so `std::sort` promises
no result; the partition loop of libstdc++ runs past the end of a list of more than 16 names
in which the pivot has such a twin. -/
structure Host where
  isValid : JournalRef → Bool
  queryUnique : JournalRef → Field → List String
  queryOrderedBootIds : JournalRef → List BootInfo
  cleanupString : String → String
  i18nc : String → String → String
  sortCaseInsensitive : List String → Option (List String)
  sortBootInfo : SortOrder → List BootInfo → List BootInfo

/-- `QString::endsWith`. -/
def QString.endsWith (s suffix : String) : Bool := suffix.data.isSuffixOf s.data

/-! ## FilterCriteriaModel: building the tree -/

/-- `FilterCriteriaModelPrivate::mapPriorityToString`. -/
def mapPriorityToString (h : Host) (priority : Int) : String :=
  if priority = 0 then h.i18nc "Radio box option, log priority value" "Emergency"
  else if priority = 1 then h.i18nc "Radio box option, log priority value" "Alert"
  else if priority = 2 then h.i18nc "Radio box option, log priority value" "Critical"
  else if priority = 3 then h.i18nc "Radio box option, log priority value" "Error"
  else if priority = 4 then h.i18nc "Radio box option, log priority value" "Warning"
  else if priority = 5 then h.i18nc "Radio box option, log priority value" "Notice"
  else if priority = 6 then h.i18nc "Radio box option, log priority value" "Info"
  else if priority = 7 then h.i18nc "Radio box option, log priority value" "Debug"
  else ""

/-- Modelled from the spec: the default constructor of `SelectionEntry` is declared in
`filtercriteriamodel_p.h`, which is not among the sources at hand. This is the default
constructed entry that serves as root; the code never reads the fields of the root itself,
only its children. -/
def emptyEntry : SelectionEntry := .mk "" .invalid .TRANSPORT false []

/-- The statement `mRootItem->child(category)->appendChild(item)`; `none` when the section
pointer is null. -/
def appendToSection (root : SelectionEntry) (category : Category) (item : SelectionEntry) :
    Option SelectionEntry :=
  match root.child category.toInt with
  | some s => some (root.setChild category.toInt.toNat (s.appendChild item))
  | none => none

/-- The loop `for (int i = 0; i <= 7; ++i)` of `rebuildModel`, entered at `i` with `count`
rounds to go. -/
def appendPriorities (h : Host) : Nat → Nat → SelectionEntry → Option SelectionEntry
  | 0, _, root => some root
  | count + 1, i, root =>
    match appendToSection root .PRIORITY
        (.mk (mapPriorityToString h i) (.string (QString.number i)) .PRIORITY
          (if i = 5 then true else false) []) with
    | some root1 => appendPriorities h count (i + 1) root1
    | none => none

/-- The loop over the sorted unit names of `rebuildModel`. -/
def appendUnits (h : Host) : List String → SelectionEntry → Option SelectionEntry
  | [], root => some root
  | unit :: rest, root =>
    if !QString.endsWith unit ".service" then appendUnits h rest root
    else
      match appendToSection root .SYSTEMD_UNIT
          (.mk (h.cleanupString unit) (.string unit) .SYSTEMD_UNIT false []) with
      | some root1 => appendUnits h rest root1
      | none => none

/-- The loop over the sorted executables of `rebuildModel`. -/
def appendExes (h : Host) : List String → SelectionEntry → Option SelectionEntry
  | [], root => some root
  | exe :: rest, root =>
    match appendToSection root .EXE (.mk (h.cleanupString exe) (.string exe) .EXE false []) with
    | some root1 => appendExes h rest root1
    | none => none

/-- `FilterCriteriaModelPrivate::rebuildModel`: the new `mRootItem` for the journal `mJournal`,
or `none` when one of the two calls of `std::sort` does not return. -/
def rebuildModel (h : Host) (mJournal : JournalRef) : Option SelectionEntry := do
  let root0 := emptyEntry
  let root1 := root0.appendChild
    (.mk (h.i18nc "Section title for log message source" "Transport") .invalid .TRANSPORT false [])
  let root2 ← appendToSection root1 .TRANSPORT
    (.mk (h.i18nc "Checkbox option for kernel log messages" "Kernel") (.string "kernel")
      .TRANSPORT false [])
  let root3 := root2.appendChild
    (.mk (h.i18nc "Section title for log message priority" "Priority") .invalid .PRIORITY false [])
  let root4 ← appendPriorities h 8 0 root3
  let root5 := root4.appendChild
    (.mk (h.i18nc "Section title for systemd unit" "Unit") .invalid .SYSTEMD_UNIT false [])
  let units ← h.sortCaseInsensitive (h.queryUnique mJournal .SYSTEMD_UNIT)
  let root6 ← appendUnits h units root5
  let root7 := root6.appendChild
    (.mk (h.i18nc "Section title for process list" "Process") .invalid .EXE false [])
  let exes ← h.sortCaseInsensitive (h.queryUnique mJournal .EXE)
  appendExes h exes root7

/-- The private data of `FilterCriteriaModel`: `mJournal` and `mRootItem`. -/
structure FilterCriteriaModel where
  mJournal : JournalRef
  mRootItem : SelectionEntry

namespace FilterCriteriaModel

/-- The constructor `FilterCriteriaModel(QObject *)`. -/
def create (h : Host) : Option FilterCriteriaModel :=
  match rebuildModel h .null with
  | none => none
  | some _ =>
    match rebuildModel h .system with
    | some root => some ⟨.system, root⟩
    | none => none

/-- The constructor `FilterCriteriaModel(const QString &journalPath, QObject *)`. -/
def createAt (h : Host) (journalPath : String) : Option FilterCriteriaModel :=
  match rebuildModel h .null with
  | none => none
  | some _ =>
    match rebuildModel h (.atPath journalPath) with
    | some root => some ⟨.atPath journalPath, root⟩
    | none => none

/-- `FilterCriteriaModel::setJournaldPath`: the returned flag and the model afterwards. -/
def setJournaldPath (h : Host) (_m : FilterCriteriaModel) (path : String) :
    Option (Bool × FilterCriteriaModel) :=
  let mJournal := JournalRef.atPath path
  let success := h.isValid mJournal
  match rebuildModel h mJournal with
  | some root => some (success, ⟨mJournal, root⟩)
  | none => none

/-- `FilterCriteriaModel::setSystemJournal`. -/
def setSystemJournal (h : Host) (_m : FilterCriteriaModel) : Option FilterCriteriaModel :=
  match rebuildModel h .system with
  | some root => some ⟨.system, root⟩
  | none => none

/-- The loop of `priorityFilter`, entered at row `i` with `count` rounds to go. -/
def priorityFilterLoop (parent : SelectionEntry) : Nat → Nat → Option Int
  | 0, _ => some 0
  | count + 1, i =>
    match parent.child i with
    | none => none
    | some c =>
      if (c.data .SELECTED).toBool then some (c.data .DATA).toInt
      else priorityFilterLoop parent count (i + 1)

/-- `FilterCriteriaModel::priorityFilter`. -/
def priorityFilter (m : FilterCriteriaModel) : Option Int :=
  match m.mRootItem.child Category.PRIORITY.toInt with
  | none => none
  | some parent => priorityFilterLoop parent parent.childCount 0

/-- The loop shared by `systemdUnitFilter` and `exeFilter`. -/
def selectedDataLoop (parent : SelectionEntry) : Nat → Nat → List String → Option (List String)
  | 0, _, entries => some entries
  | count + 1, i, entries =>
    match parent.child i with
    | none => none
    | some c =>
      if (c.data .SELECTED).toBool then
        selectedDataLoop parent count (i + 1) (entries ++ [(c.data .DATA).toString])
      else selectedDataLoop parent count (i + 1) entries

/-- `FilterCriteriaModel::systemdUnitFilter`. -/
def systemdUnitFilter (m : FilterCriteriaModel) : Option (List String) :=
  match m.mRootItem.child Category.SYSTEMD_UNIT.toInt with
  | none => none
  | some parent => selectedDataLoop parent parent.childCount 0 []

/-- `FilterCriteriaModel::exeFilter`. -/
def exeFilter (m : FilterCriteriaModel) : Option (List String) :=
  match m.mRootItem.child Category.EXE.toInt with
  | none => none
  | some parent => selectedDataLoop parent parent.childCount 0 []

/-- The loop of `isKernelFilterEnabled`. -/
def kernelLoop (parent : SelectionEntry) : Nat → Nat → Option Bool
  | 0, _ => some false
  | count + 1, i =>
    match parent.child i with
    | none => none
    | some c =>
      if (c.data .DATA).equals (.string "kernel") && (c.data .SELECTED).toBool then some true
      else kernelLoop parent count (i + 1)

/-- `FilterCriteriaModel::isKernelFilterEnabled`. -/
def isKernelFilterEnabled (m : FilterCriteriaModel) : Option Bool :=
  match m.mRootItem.child Category.TRANSPORT.toInt with
  | none => none
  | some parent => kernelLoop parent parent.childCount 0

end FilterCriteriaModel

/-! ## FilterCriteriaModel: indices and `setData` -/

/-- A `QModelIndex` of the filter criteria model, as the rows from the entry up to the top
level: `[]` is the invalid index, `[s]` the section in row `s`, `[c, s]` the child in row `c` of
section `s`. -/
abbrev QModelIndex := List Nat

/-- The entry a chain of rows leads to, `root` for the empty chain. -/
def entryAt (root : SelectionEntry) : List Nat → Option SelectionEntry
  | [] => some root
  | row :: up =>
    match entryAt root up with
    | some p => p.child row
    | none => none

/-- `QModelIndex::internalPointer`: null for the invalid index. Qt hands out no index for rows
that lead to no entry (`index()` answers the invalid index); such a chain is null as well. -/
def internalPointer (root : SelectionEntry) : QModelIndex → Option SelectionEntry
  | [] => none
  | row :: up => entryAt root (row :: up)

/-- The tree after the object a chain of rows leads to has been overwritten by `e`. -/
def replaceAt (root : SelectionEntry) : List Nat → SelectionEntry → SelectionEntry
  | [], e => e
  | row :: up, e =>
    match entryAt root up with
    | some p => replaceAt root up (p.setChild row e)
    | none => root

/-- `FilterCriteriaModel::parent`: the index of the parent entry, invalid for a section. -/
def parentIndex : QModelIndex → QModelIndex
  | [] => []
  | _ :: up => up

/-- The loop computing `hasSelectedSibling` in `setData`. -/
def hasSelectedSiblingLoop (parent : SelectionEntry) : Nat → Nat → Bool → Option Bool
  | 0, _, acc => some acc
  | count + 1, i, acc =>
    if acc then hasSelectedSiblingLoop parent count (i + 1) true
    else
      match parent.child i with
      | none => none
      | some c => hasSelectedSiblingLoop parent count (i + 1) (c.data .SELECTED).toBool

/-- `FilterCriteriaModel::setData` on the tree: the returned flag and the tree afterwards.
For the index `row :: up` the parent index `index.parent()` is `up`, see `parentIndex`; for
the invalid index and for a null entry the call goes to `QAbstractItemModel::setData`, which
returns false. The result of the inner calls for the parent is dropped, as in the source. -/
def setDataTree : QModelIndex → SelectionEntry → QVariant → Roles → Option (Bool × SelectionEntry)
  | [], root, _, _ => some (false, root)
  | row :: up, root, value, role =>
    match internalPointer root (row :: up) with
    | none => some (false, root)
    | some entry =>
      if value.equals (entry.data role) then some (true, root)
      else
        let result := (entry.setData value role).1
        let root1 := replaceAt root (row :: up) (entry.setData value role).2
        let category := (entry.setData value role).2.mCategory
        if result && category == Category.PRIORITY && role == Roles.SELECTED && result then
          some (result, root1)
        else if result && category == Category.SYSTEMD_UNIT then
          if value.toBool == true then
            match setDataTree up root1 (.bool true) .SELECTED with
            | some (_, root2) => some (result, root2)
            | none => none
          else
            match internalPointer root1 up with
            | some parent =>
              match hasSelectedSiblingLoop parent parent.childCount 0 false with
              | some hasSelectedSibling =>
                match setDataTree up root1 (.bool hasSelectedSibling) .SELECTED with
                | some (_, root2) => some (result, root2)
                | none => none
              | none => none
            | none => some (result, root1)
        else if result && category == Category.EXE then
          if value.toBool == true then
            match setDataTree up root1 (.bool true) .SELECTED with
            | some (_, root2) => some (result, root2)
            | none => none
          else
            match internalPointer root1 up with
            | some parent =>
              match hasSelectedSiblingLoop parent parent.childCount 0 false with
              | some hasSelectedSibling =>
                match setDataTree up root1 (.bool hasSelectedSibling) .SELECTED with
                | some (_, root2) => some (result, root2)
                | none => none
              | none => none
            | none => some (result, root1)
        else if result && category == Category.TRANSPORT then some (result, root1)
        else some (result, root1)

/-- `FilterCriteriaModel::setData`. -/
def FilterCriteriaModel.setData (m : FilterCriteriaModel) (index : QModelIndex) (value : QVariant)
    (role : Roles) : Option (Bool × FilterCriteriaModel) :=
  match setDataTree index m.mRootItem value role with
  | some (result, root) => some (result, ⟨m.mJournal, root⟩)
  | none => none

/-- One call of `setData`: index, value and role. -/
structure SetDataCall where
  index : QModelIndex
  value : QVariant
  role : Roles

/-- A sequence of `setData` calls, one after the other. -/
def FilterCriteriaModel.applyCalls : FilterCriteriaModel → List SetDataCall → Option FilterCriteriaModel
  | m, [] => some m
  | m, call :: rest =>
    match m.setData call.index call.value call.role with
    | some (_, m1) => FilterCriteriaModel.applyCalls m1 rest
    | none => none

/-- A host for examples: two service units, a mount unit and two executables. Its lists are in
order and free of names that differ in case only, and its `std::sort` returns them as they
are. -/
def exampleHost : Host where
  isValid := fun j => decide (j = .system)
  queryUnique := fun j f =>
    match j, f with
    | .system, .SYSTEMD_UNIT => ["a.service", "b.mount", "c.service"]
    | .system, .EXE => ["/bin/x", "/bin/y"]
    | _, _ => []
  queryOrderedBootIds := fun j =>
    match j with
    | .system => [⟨"boot1", 10, 20⟩, ⟨"boot2", 30, 40⟩]
    | _ => []
  cleanupString := fun s => s
  i18nc := fun _ text => text
  sortCaseInsensitive := fun l => some l
  sortBootInfo := fun _ l => l.reverse


/-- Seventeen unit names, two of which differ in case only. -/
def tiedUnits : List String :=
  ["a.service", "b.service", "c.service", "d.service", "e.service", "f.service", "g.service",
    "h.service", "i.service", "j.service", "k.service", "l.service", "m.service", "n.service",
    "o.service", "z.service", "Z.service"]

/-- A host for examples whose journal lists `tiedUnits` and whose `std::sort` does not return
for that list, as with libstdc++, where the comparison `<= 0` lets the partition loop run past
the end of such a list. Everything else is as in `exampleHost`. -/
def tiedHost : Host :=
  { exampleHost with
    queryUnique := fun _ f =>
      match f with
      | .SYSTEMD_UNIT => tiedUnits
      | .EXE => []
    sortCaseInsensitive := fun l => if l = tiedUnits then none else some l }

/-! ## The tree that `rebuildModel` builds -/

/-- The child entry `rebuildModel` makes for priority `i`. -/
def priorityEntry (h : Host) (i : Nat) : SelectionEntry :=
  .mk (mapPriorityToString h i) (.string (QString.number i)) .PRIORITY (if i = 5 then true else false) []

/-- The child entry `rebuildModel` makes for a unit name. -/
def unitEntry (h : Host) (unit : String) : SelectionEntry :=
  .mk (h.cleanupString unit) (.string unit) .SYSTEMD_UNIT false []

/-- The child entry `rebuildModel` makes for an executable. -/
def exeEntry (h : Host) (exe : String) : SelectionEntry :=
  .mk (h.cleanupString exe) (.string exe) .EXE false []

/-- The Transport section after `rebuildModel`. -/
def transportSection (h : Host) : SelectionEntry :=
  .mk (h.i18nc "Section title for log message source" "Transport") .invalid .TRANSPORT false
    [.mk (h.i18nc "Checkbox option for kernel log messages" "Kernel") (.string "kernel")
      .TRANSPORT false []]

/-- The Priority section after `rebuildModel`. -/
def prioritySection (h : Host) : SelectionEntry :=
  .mk (h.i18nc "Section title for log message priority" "Priority") .invalid .PRIORITY false
    [priorityEntry h 0, priorityEntry h 1, priorityEntry h 2, priorityEntry h 3,
      priorityEntry h 4, priorityEntry h 5, priorityEntry h 6, priorityEntry h 7]

/-- The Unit section after `rebuildModel`, `units` being the sorted list of unit names. -/
def unitSection (h : Host) (units : List String) : SelectionEntry :=
  .mk (h.i18nc "Section title for systemd unit" "Unit") .invalid .SYSTEMD_UNIT false
    ((units.filter (fun unit => QString.endsWith unit ".service")).map (unitEntry h))

/-- The Process section after `rebuildModel`, `exes` being the sorted list of executables. -/
def exeSection (h : Host) (exes : List String) : SelectionEntry :=
  .mk (h.i18nc "Section title for process list" "Process") .invalid .EXE false
    (exes.map (exeEntry h))

/-- The whole tree after `rebuildModel`, for the sorted lists of unit names and executables. -/
def rebuiltTree (h : Host) (units exes : List String) : SelectionEntry :=
  .mk "" .invalid .TRANSPORT false
    [transportSection h, prioritySection h, unitSection h units, exeSection h exes]

/-- Text, data and category of an entry: what `setData` never writes. -/
def label (e : SelectionEntry) : String × QVariant × Category := (e.mText, e.mData, e.mCategory)

/-- The labels of the sections and of their children. -/
def skeleton (root : SelectionEntry) :
    List ((String × QVariant × Category) × List (String × QVariant × Category)) :=
  root.mChildItems.map (fun s => (label s, s.mChildItems.map label))

/-- A Unit section for examples: two service units, the first one selected. -/
def exampleUnitSection : SelectionEntry :=
  .mk "Unit" .invalid .SYSTEMD_UNIT true
    [.mk "a.service" (.string "a.service") .SYSTEMD_UNIT true [],
      .mk "c.service" (.string "c.service") .SYSTEMD_UNIT false []]

/-- A model for examples: the tree built for the system journal of `exampleHost`, with the
unit `a.service` and the kernel entry selected. -/
def exampleModel : FilterCriteriaModel where
  mJournal := .system
  mRootItem := .mk "" .invalid .TRANSPORT false
    [.mk "Transport" .invalid .TRANSPORT false
        [.mk "Kernel" (.string "kernel") .TRANSPORT true []],
      prioritySection exampleHost, exampleUnitSection,
      exeSection exampleHost ["/bin/x", "/bin/y"]]

/-! ## BootModel -/

/-- The private data of `BootModel`: `mJournaldPath`, `mJournal` and `mBootInfo`. -/
structure BootModel where
  mJournaldPath : String
  mJournal : JournalRef
  mBootInfo : List BootInfo

namespace BootModel

/-- The constructor `BootModel(QObject *)`. -/
def create (h : Host) : BootModel :=
  { mJournaldPath := ""
    mJournal := .system
    mBootInfo := h.sortBootInfo .DescendingOrder (h.queryOrderedBootIds .system) }

/-- The constructor `BootModel(const QString &journaldPath, QObject *)`. -/
def createAt (h : Host) (journaldPath : String) : BootModel :=
  { mJournaldPath := ""
    mJournal := .atPath journaldPath
    mBootInfo := h.sortBootInfo .DescendingOrder (h.queryOrderedBootIds (.atPath journaldPath)) }

/-- `BootModel::setJournaldPath`: the returned flag and the model afterwards. -/
def setJournaldPath (h : Host) (m : BootModel) (path : String) : Bool × BootModel :=
  let m1 : BootModel := { m with mJournaldPath := path }
  let m2 : BootModel := { m1 with mJournal := .atPath path }
  let success := h.isValid m2.mJournal
  if success then
    (success, { m2 with
      mBootInfo := h.sortBootInfo .DescendingOrder (h.queryOrderedBootIds m2.mJournal) })
  else (success, m2)

/-- `BootModel::journaldPath`. -/
def journaldPath (m : BootModel) : String := m.mJournaldPath

/-- `BootModel::setSystemJournal`. -/
def setSystemJournal (h : Host) (_m : BootModel) : BootModel :=
  { mJournaldPath := ""
    mJournal := .system
    mBootInfo := h.sortBootInfo .DescendingOrder (h.queryOrderedBootIds .system) }

/-- `BootModel::rowCount`. -/
def rowCount (m : BootModel) : Nat := m.mBootInfo.length

/-- `BootModel::bootId`: the empty string for a row out of range. -/
def bootId (m : BootModel) (row : Int) : String :=
  if row < 0 ∨ row ≥ (m.mBootInfo.length : Int) then ""
  else
    match m.mBootInfo[row.toNat]? with
    | some info => info.mBootId
    | none => ""

end BootModel

/-! ## JournaldViewModel: filter, window and nearest-time lookup

`src/lib/journaldviewmodel.h` declares these operations; their bodies are in
`journaldviewmodel.cpp`, which is not among the sources at hand. The definitions of this
section follow the specification (sections 3, 4.1, 4.2, 4.4 and 7). -/

/-- Modelled from the spec: the record LogEntry of section 3; the body of `JournaldViewModel`
that produces the entries is missing. `kernel` says whether the entry is a kernel entry, which
section 4.1 refers to. Timestamps are integers. -/
structure LogEntry where
  cursor : String
  realtime : Int
  monotonic : Int
  bootId : String
  priority : Nat
  unit : String
  exe : String
  message : String
  sequence : Nat
  kernel : Bool
  deriving DecidableEq, Repr

/-- Modelled from the spec: the record FilterSpec of section 3, the state behind the setters
`setSystemdUnitFilter`, `setExeFilter`, `setBootFilter`, `setKernelFilter` and
`setPriorityFilter`, whose bodies are missing. An empty allow-set leaves its axis
unrestricted; `none` is the unset priority threshold. -/
structure FilterSpec where
  unitAllow : List String
  exeAllow : List String
  bootAllow : List String
  kernelEnabled : Bool
  priorityThreshold : Option Nat
  deriving DecidableEq, Repr

/-- Modelled from the spec: the four conjuncts of `matches(entry)` in section 4.1 (the filter
evaluation inside the missing `journaldviewmodel.cpp`). -/
def FilterSpec.matchesAxes (f : FilterSpec) (e : LogEntry) : Bool :=
  (f.unitAllow.isEmpty || f.unitAllow.contains e.unit) &&
  (f.exeAllow.isEmpty || f.exeAllow.contains e.exe || (e.kernel && f.kernelEnabled)) &&
  (f.bootAllow.isEmpty || f.bootAllow.contains e.bootId) &&
  (match f.priorityThreshold with
    | none => true
    | some t => decide (e.priority ≤ t))

/-- Modelled from the spec: `matches(entry)` of section 4.1 (missing `journaldviewmodel.cpp`):
the four conjuncts together with the sentence that follows them, "kernel entries are excluded
unless kernel-enabled is true even with an empty exe-allow set", which is also what the header
documents for `setKernelFilter` ("Per default, Kernel messages are deactivated"). -/
def FilterSpec.matches (f : FilterSpec) (e : LogEntry) : Bool :=
  (!e.kernel || f.kernelEnabled) && f.matchesAxes e

/-- Modelled from the spec: the two directions in which the window grows (section 4.2); the
header declares `fetchMore` and `fetchMoreLogEntries` without their bodies. -/
inductive FetchDirection
  | head
  | tail
  deriving DecidableEq, Repr

/-- Modelled from the spec: the Window of section 3 with the journal source it reads and the
part of the source it has scanned (the private data of `JournaldViewModel`, which is missing).
`source` lists the raw entries in journal order; the source positions `headPos` up to `tailPos`
have been scanned; `moreAtHead` and `moreAtTail` tell whether the filtered stream may continue
beyond the window. -/
structure WindowState where
  source : List LogEntry
  filter : FilterSpec
  chunkSize : Nat
  headPos : Nat
  tailPos : Nat
  window : List LogEntry
  moreAtHead : Bool
  moreAtTail : Bool
  deriving Repr

/-- Modelled from the spec: the scan of section 4.2 behind `fetchMore` (body missing). It
walks the candidates in scan order until `chunk` matches are collected or the source ends, and
returns the matches, the number of candidates consumed and whether the end was reached.
Candidates that do not match are consumed but not counted. -/
def scanMatches (f : FilterSpec) : List LogEntry → Nat → List LogEntry × Nat × Bool
  | [], _ => ([], 0, true)
  | _ :: _, 0 => ([], 0, false)
  | e :: rest, chunk + 1 =>
    if f.matches e then
      ((e :: (scanMatches f rest chunk).1), (scanMatches f rest chunk).2.1 + 1,
        (scanMatches f rest chunk).2.2)
    else
      ((scanMatches f rest (chunk + 1)).1, (scanMatches f rest (chunk + 1)).2.1 + 1,
        (scanMatches f rest (chunk + 1)).2.2)

namespace WindowState

/-- Modelled from the spec: `rowCount()` of section 6 (body missing). -/
def rowCount (s : WindowState) : Nat := s.window.length

/-- Modelled from the spec: `seekHead()` of section 4.2 (body missing): the window is reset,
the source is positioned at its start, and afterwards `moreAtHead` is false and `moreAtTail`
is true unless the filtered stream is empty. -/
def seekHead (s : WindowState) : WindowState :=
  { s with headPos := 0, tailPos := 0, window := [], moreAtHead := false,
           moreAtTail := s.source.any s.filter.matches }

/-- Modelled from the spec: `seekTail()` of section 4.2 (body missing), the mirror image of
`seekHead`. -/
def seekTail (s : WindowState) : WindowState :=
  { s with headPos := s.source.length, tailPos := s.source.length, window := [],
           moreAtHead := s.source.any s.filter.matches, moreAtTail := false }

/-- Modelled from the spec: `canFetchMore(direction)` of section 4.2 (body missing): true iff
the boundary flag of the direction says the filtered stream is not exhausted there. -/
def canFetchMore (s : WindowState) : FetchDirection → Bool
  | .head => s.moreAtHead
  | .tail => s.moreAtTail

/-- Modelled from the spec: `fetchMore(direction)` of sections 4.2 and 7 (body missing): the
number of entries appended and the state afterwards. Beyond an exhausted boundary the call is a
no-op returning zero; otherwise the source is scanned in the direction for `chunkSize`
matches, which are added at that end of the window, and the direction is marked exhausted
only when the scan reached the end of the source. -/
def fetchMore (s : WindowState) : FetchDirection → Nat × WindowState
  | .tail =>
    if s.moreAtTail then
      let r := scanMatches s.filter (s.source.drop s.tailPos) s.chunkSize
      (r.1.length,
        { s with window := s.window ++ r.1, tailPos := s.tailPos + r.2.1, moreAtTail := !r.2.2 })
    else (0, s)
  | .head =>
    if s.moreAtHead then
      let r := scanMatches s.filter (s.source.take s.headPos).reverse s.chunkSize
      (r.1.length,
        { s with window := r.1.reverse ++ s.window, headPos := s.headPos - r.2.1,
                 moreAtHead := !r.2.2 })
    else (0, s)

end WindowState

/-- Modelled from the spec: the order of section 4.4 behind `closestIndexForData` (body
missing): `cand` is preferred to `best` when its timestamp is strictly nearer to the target, or
equally near while it is at or before the target and `best` is after it. -/
def closerTo (target : Int) (cand best : LogEntry) : Bool :=
  decide ((cand.realtime - target).natAbs < (best.realtime - target).natAbs) ||
  (decide ((cand.realtime - target).natAbs = (best.realtime - target).natAbs) &&
    decide (cand.realtime ≤ target) && !decide (best.realtime ≤ target))

/-- Modelled from the spec: the search of section 4.4 behind `closestIndexForData` (body
missing) through the rows from `row` on, `bestRow` being the row of the best entry so far. -/
def closestFrom (target : Int) : List LogEntry → Nat → Nat → LogEntry → Nat
  | [], _, bestRow, _ => bestRow
  | e :: rest, row, bestRow, best =>
    if closerTo target e best then closestFrom target rest (row + 1) row e
    else closestFrom target rest (row + 1) bestRow best

/-- Modelled from the spec: `closestIndexForData(timestamp)` of section 4.4, declared in
`journaldviewmodel.h` without its body: `rows` are the entries of the filtered stream that the
model holds, in order, so that `rowCount()` is their number; the result is -1 when there is
none and otherwise the row of the entry whose timestamp is nearest to the target, ties going
to the entry at or before the target. -/
def closestIndexForData (rows : List LogEntry) (datetime : Int) : Int :=
  match rows with
  | [] => -1
  | e :: rest => (closestFrom datetime rest 1 0 e : Nat)

/-- A log entry for examples. -/
def exampleEntry (realtime : Int) (priority : Nat) (kernel : Bool) : LogEntry where
  cursor := "c"
  realtime := realtime
  monotonic := realtime
  bootId := "boot1"
  priority := priority
  unit := if kernel then "" else "a.service"
  exe := if kernel then "" else "/bin/x"
  message := "m"
  sequence := 0
  kernel := kernel

/-- The filter that restricts nothing and leaves kernel messages out. -/
def emptyFilter : FilterSpec where
  unitAllow := []
  exeAllow := []
  bootAllow := []
  kernelEnabled := false
  priorityThreshold := none

/-- A window for examples: three entries, all loaded, both directions exhausted. -/
def exampleWindow : WindowState where
  source := [exampleEntry 10 3 false, exampleEntry 20 3 true, exampleEntry 30 6 false]
  filter := emptyFilter
  chunkSize := 500
  headPos := 0
  tailPos := 3
  window := [exampleEntry 10 3 false, exampleEntry 30 6 false]
  moreAtHead := false
  moreAtTail := false

/-! # Theorems -/

/-! ## Facts about the loops over the children of a section -/

namespace SelectionEntry

theorem child_natCast (e : SelectionEntry) (i : Nat) : e.child (i : Int) = e.mChildItems[i]? := by
  unfold child
  by_cases h : i < e.mChildItems.length
  · have h1 : ¬ ((i : Int) < 0 ∨ (i : Int) ≥ (e.mChildItems.length : Int)) := by omega
    rw [if_neg h1, Int.toNat_ofNat]
  · have h1 : ((i : Int) < 0 ∨ (i : Int) ≥ (e.mChildItems.length : Int)) := by omega
    have h2 : e.mChildItems.length ≤ i := by omega
    rw [if_pos h1, List.getElem?_eq_none h2]

theorem data_selected_toBool (c : SelectionEntry) : (c.data .SELECTED).toBool = c.mSelected := rfl

end SelectionEntry

theorem equals_string (a : QVariant) (s : String) :
    a.equals (.string s) = decide (a = .string s) := by
  cases a <;> simp [QVariant.equals, QVariant.numeric]

theorem equals_bool (a b : Bool) : (QVariant.bool a).equals (.bool b) = decide (a = b) := by
  cases a <;> cases b <;> rfl

namespace FilterCriteriaModel

theorem selectedDataLoop_eq (parent : SelectionEntry) :
    ∀ (count i : Nat) (entries : List String), i + count = parent.mChildItems.length →
      selectedDataLoop parent count i entries =
        some (entries ++ ((parent.mChildItems.drop i).filter (fun c => c.mSelected)).map
          (fun c => c.mData.toString)) := by
  intro count
  induction count with
  | zero =>
    intro i entries h
    have h1 : parent.mChildItems.length ≤ i := by omega
    simp [selectedDataLoop, List.drop_eq_nil_of_le h1]
  | succ n ih =>
    intro i entries h
    have hlt : i < parent.mChildItems.length := by omega
    have hd : parent.mChildItems.drop i = parent.mChildItems[i] :: parent.mChildItems.drop (i + 1) :=
      List.drop_eq_getElem_cons hlt
    simp only [selectedDataLoop, SelectionEntry.child_natCast, List.getElem?_eq_getElem hlt,
      SelectionEntry.data_selected_toBool]
    by_cases hs : parent.mChildItems[i].mSelected = true
    · rw [if_pos hs, ih (i + 1) _ (by omega), hd]
      simp only [List.filter_cons, hs, if_true, List.map_cons, SelectionEntry.data,
        List.append_assoc, List.singleton_append]
    · rw [if_neg hs, ih (i + 1) _ (by omega), hd]
      simp only [List.filter_cons, hs, Bool.false_eq_true, if_false]

theorem priorityFilterLoop_eq (parent : SelectionEntry) :
    ∀ (count i : Nat), i + count = parent.mChildItems.length →
      priorityFilterLoop parent count i =
        some (match (parent.mChildItems.drop i).find? (fun c => c.mSelected) with
          | some c => c.mData.toInt
          | none => 0) := by
  intro count
  induction count with
  | zero =>
    intro i h
    have h1 : parent.mChildItems.length ≤ i := by omega
    simp [priorityFilterLoop, List.drop_eq_nil_of_le h1]
  | succ n ih =>
    intro i h
    have hlt : i < parent.mChildItems.length := by omega
    have hd : parent.mChildItems.drop i = parent.mChildItems[i] :: parent.mChildItems.drop (i + 1) :=
      List.drop_eq_getElem_cons hlt
    simp only [priorityFilterLoop, SelectionEntry.child_natCast, List.getElem?_eq_getElem hlt,
      SelectionEntry.data_selected_toBool]
    by_cases hs : parent.mChildItems[i].mSelected = true
    · rw [if_pos hs, hd]
      simp only [List.find?_cons, hs, SelectionEntry.data]
    · rw [if_neg hs, ih (i + 1) (by omega), hd]
      simp only [Bool.not_eq_true] at hs
      simp only [List.find?_cons, hs]

theorem kernelLoop_eq (parent : SelectionEntry) :
    ∀ (count i : Nat), i + count = parent.mChildItems.length →
      kernelLoop parent count i =
        some ((parent.mChildItems.drop i).any
          (fun c => decide (c.mData = .string "kernel") && c.mSelected)) := by
  intro count
  induction count with
  | zero =>
    intro i h
    have h1 : parent.mChildItems.length ≤ i := by omega
    simp [kernelLoop, List.drop_eq_nil_of_le h1]
  | succ n ih =>
    intro i h
    have hlt : i < parent.mChildItems.length := by omega
    have hd : parent.mChildItems.drop i = parent.mChildItems[i] :: parent.mChildItems.drop (i + 1) :=
      List.drop_eq_getElem_cons hlt
    simp only [kernelLoop, SelectionEntry.child_natCast, List.getElem?_eq_getElem hlt,
      SelectionEntry.data_selected_toBool, equals_string]
    simp only [SelectionEntry.data]
    by_cases hs : (decide (parent.mChildItems[i].mData = .string "kernel") &&
        parent.mChildItems[i].mSelected) = true
    · rw [if_pos hs, hd]
      simp only [List.any_cons, hs, Bool.true_or]
    · rw [if_neg hs, ih (i + 1) (by omega), hd]
      simp only [Bool.not_eq_true] at hs
      simp only [List.any_cons, hs, Bool.false_or]

end FilterCriteriaModel

theorem hasSelectedSiblingLoop_eq (parent : SelectionEntry) :
    ∀ (count i : Nat) (acc : Bool), i + count = parent.mChildItems.length →
      hasSelectedSiblingLoop parent count i acc =
        some (acc || (parent.mChildItems.drop i).any (fun c => c.mSelected)) := by
  intro count
  induction count with
  | zero =>
    intro i acc h
    have h1 : parent.mChildItems.length ≤ i := by omega
    simp [hasSelectedSiblingLoop, List.drop_eq_nil_of_le h1]
  | succ n ih =>
    intro i acc h
    have hlt : i < parent.mChildItems.length := by omega
    have hd : parent.mChildItems.drop i = parent.mChildItems[i] :: parent.mChildItems.drop (i + 1) :=
      List.drop_eq_getElem_cons hlt
    cases acc with
    | true =>
      simp only [hasSelectedSiblingLoop, if_true]
      rw [ih (i + 1) true (by omega)]
      simp
    | false =>
      simp only [hasSelectedSiblingLoop, SelectionEntry.child_natCast,
        List.getElem?_eq_getElem hlt, SelectionEntry.data_selected_toBool, Bool.false_eq_true,
        if_false]
      rw [ih (i + 1) _ (by omega), hd]
      simp only [List.any_cons, Bool.false_or]

/-! ## `rebuildModel` in closed form -/

theorem appendUnits_eq (h : Host) (t : String) (d : QVariant) (c : Category) (s : Bool)
    (a b : SelectionEntry) (ut : String) (ud : QVariant) (uc : Category) (us : Bool) :
    ∀ (units : List String) (ucs : List SelectionEntry),
      appendUnits h units (.mk t d c s [a, b, .mk ut ud uc us ucs]) =
        some (.mk t d c s [a, b, .mk ut ud uc us
          (ucs ++ (units.filter (fun unit => QString.endsWith unit ".service")).map (unitEntry h))]) := by
  intro units
  induction units with
  | nil => intro ucs; simp [appendUnits]
  | cons unit rest ih =>
    intro ucs
    by_cases hs : QString.endsWith unit ".service" = true
    · have h1 : appendToSection (.mk t d c s [a, b, .mk ut ud uc us ucs]) .SYSTEMD_UNIT
          (.mk (h.cleanupString unit) (.string unit) .SYSTEMD_UNIT false []) =
          some (.mk t d c s [a, b, .mk ut ud uc us (ucs ++ [unitEntry h unit])]) := rfl
      simp only [appendUnits, hs, Bool.not_true, Bool.false_eq_true, if_false, h1, ih,
        List.filter_cons, if_true, List.map_cons, List.append_assoc, List.singleton_append]
    · simp only [Bool.not_eq_true] at hs
      simp only [appendUnits, hs, Bool.not_false, if_true, ih, List.filter_cons,
        Bool.false_eq_true, if_false]

theorem appendExes_eq (h : Host) (t : String) (d : QVariant) (c : Category) (s : Bool)
    (a b u : SelectionEntry) (et : String) (ed : QVariant) (ec : Category) (es : Bool) :
    ∀ (exes : List String) (ecs : List SelectionEntry),
      appendExes h exes (.mk t d c s [a, b, u, .mk et ed ec es ecs]) =
        some (.mk t d c s [a, b, u, .mk et ed ec es (ecs ++ exes.map (exeEntry h))]) := by
  intro exes
  induction exes with
  | nil => intro ecs; simp [appendExes]
  | cons exe rest ih =>
    intro ecs
    have h1 : appendToSection (.mk t d c s [a, b, u, .mk et ed ec es ecs]) .EXE
        (.mk (h.cleanupString exe) (.string exe) .EXE false []) =
        some (.mk t d c s [a, b, u, .mk et ed ec es (ecs ++ [exeEntry h exe])]) := rfl
    simp only [appendExes, h1, ih, List.map_cons, List.append_assoc, List.singleton_append]

/-- `rebuildModel` returns exactly when both calls of `std::sort` return, and what it returns
then is `rebuiltTree` for the two sorted lists. -/
theorem rebuildModel_unfold (h : Host) (j : JournalRef) :
    rebuildModel h j =
      (h.sortCaseInsensitive (h.queryUnique j .SYSTEMD_UNIT)).bind (fun units =>
        (h.sortCaseInsensitive (h.queryUnique j .EXE)).bind (fun exes =>
          some (rebuiltTree h units exes))) := by
  have h4 : appendPriorities h 8 0
      (.mk "" .invalid .TRANSPORT false [transportSection h,
        .mk (h.i18nc "Section title for log message priority" "Priority") .invalid .PRIORITY
          false []]) =
      some (.mk "" .invalid .TRANSPORT false [transportSection h, prioritySection h]) := rfl
  have hstart : rebuildModel h j =
      (appendPriorities h 8 0
        (.mk "" .invalid .TRANSPORT false [transportSection h,
          .mk (h.i18nc "Section title for log message priority" "Priority") .invalid .PRIORITY
            false []])).bind
        (fun root4 =>
          (h.sortCaseInsensitive (h.queryUnique j .SYSTEMD_UNIT)).bind (fun units =>
            (appendUnits h units
              (root4.appendChild (.mk (h.i18nc "Section title for systemd unit" "Unit") .invalid
                .SYSTEMD_UNIT false []))).bind
              (fun root6 =>
                (h.sortCaseInsensitive (h.queryUnique j .EXE)).bind (fun exes =>
                  appendExes h exes
                    (root6.appendChild (.mk (h.i18nc "Section title for process list" "Process")
                      .invalid .EXE false [])))))) := rfl
  rw [hstart, h4, Option.some_bind]
  cases hu : h.sortCaseInsensitive (h.queryUnique j .SYSTEMD_UNIT) with
  | none => rfl
  | some units =>
    have h6 := appendUnits_eq h "" .invalid .TRANSPORT false (transportSection h)
      (prioritySection h) (h.i18nc "Section title for systemd unit" "Unit") .invalid
      .SYSTEMD_UNIT false units []
    simp only [Option.some_bind]
    have h6a : appendUnits h units
        ((SelectionEntry.mk "" .invalid .TRANSPORT false
          [transportSection h, prioritySection h]).appendChild
          (.mk (h.i18nc "Section title for systemd unit" "Unit") .invalid .SYSTEMD_UNIT false [])) =
        some (.mk "" .invalid .TRANSPORT false
          [transportSection h, prioritySection h, unitSection h units]) := h6
    rw [h6a, Option.some_bind]
    cases he : h.sortCaseInsensitive (h.queryUnique j .EXE) with
    | none => rfl
    | some exes =>
      have h8 := appendExes_eq h "" .invalid .TRANSPORT false (transportSection h)
        (prioritySection h) (unitSection h units)
        (h.i18nc "Section title for process list" "Process") .invalid .EXE false exes []
      simp only [Option.some_bind]
      exact h8

theorem rebuildModel_eq (h : Host) (j : JournalRef) (units exes : List String)
    (hu : h.sortCaseInsensitive (h.queryUnique j .SYSTEMD_UNIT) = some units)
    (he : h.sortCaseInsensitive (h.queryUnique j .EXE) = some exes) :
    rebuildModel h j = some (rebuiltTree h units exes) := by
  rw [rebuildModel_unfold, hu, he]
  rfl

/-- Every tree that `rebuildModel` returns is `rebuiltTree` for the lists the two calls of
`std::sort` returned. -/
theorem rebuildModel_some (h : Host) (j : JournalRef) (root : SelectionEntry)
    (hr : rebuildModel h j = some root) :
    ∃ units exes, h.sortCaseInsensitive (h.queryUnique j .SYSTEMD_UNIT) = some units ∧
      h.sortCaseInsensitive (h.queryUnique j .EXE) = some exes ∧
      root = rebuiltTree h units exes := by
  rw [rebuildModel_unfold] at hr
  cases hu : h.sortCaseInsensitive (h.queryUnique j .SYSTEMD_UNIT) with
  | none => rw [hu] at hr; cases hr
  | some units =>
    cases he : h.sortCaseInsensitive (h.queryUnique j .EXE) with
    | none => rw [hu, he] at hr; cases hr
    | some exes =>
      rw [hu, he] at hr
      exact ⟨units, exes, rfl, rfl, (Option.some.inj hr).symm⟩

/-- On `tiedHost` the call of `std::sort` for the unit names does not return, and so neither
`rebuildModel` nor the constructor does. -/
theorem rebuildModel_tiedHost :
    rebuildModel tiedHost .system = none ∧ FilterCriteriaModel.create tiedHost = none :=
  ⟨rfl, rfl⟩

/-- When a call of `std::sort` does not return, neither does `rebuildModel`. -/
theorem rebuildModel_none (h : Host) (j : JournalRef)
    (hs : h.sortCaseInsensitive (h.queryUnique j .SYSTEMD_UNIT) = none ∨
      h.sortCaseInsensitive (h.queryUnique j .EXE) = none) :
    rebuildModel h j = none := by
  rw [rebuildModel_unfold]
  rcases hs with hs | hs
  · rw [hs]; rfl
  · rw [hs]
    cases h.sortCaseInsensitive (h.queryUnique j .SYSTEMD_UNIT) <;> rfl

/-! ## The accessors in closed form -/

namespace FilterCriteriaModel

theorem systemdUnitFilter_eq (m : FilterCriteriaModel) (unitSec : SelectionEntry)
    (hu : m.mRootItem.child Category.SYSTEMD_UNIT.toInt = some unitSec) :
    m.systemdUnitFilter =
      some ((unitSec.mChildItems.filter (fun c => c.mSelected)).map (fun c => c.mData.toString)) := by
  unfold systemdUnitFilter
  rw [hu]
  simp only [SelectionEntry.childCount]
  rw [selectedDataLoop_eq unitSec _ 0 [] (by omega)]
  simp only [List.drop_zero, List.nil_append]

theorem exeFilter_eq (m : FilterCriteriaModel) (exeSec : SelectionEntry)
    (he : m.mRootItem.child Category.EXE.toInt = some exeSec) :
    m.exeFilter =
      some ((exeSec.mChildItems.filter (fun c => c.mSelected)).map (fun c => c.mData.toString)) := by
  unfold exeFilter
  rw [he]
  simp only [SelectionEntry.childCount]
  rw [selectedDataLoop_eq exeSec _ 0 [] (by omega)]
  simp only [List.drop_zero, List.nil_append]

theorem priorityFilter_eq (m : FilterCriteriaModel) (prioSec : SelectionEntry)
    (hp : m.mRootItem.child Category.PRIORITY.toInt = some prioSec) :
    m.priorityFilter =
      some (match prioSec.mChildItems.find? (fun c => c.mSelected) with
        | some c => c.mData.toInt
        | none => 0) := by
  unfold priorityFilter
  rw [hp]
  simp only [SelectionEntry.childCount]
  rw [priorityFilterLoop_eq prioSec _ 0 (by omega)]
  simp only [List.drop_zero]

theorem isKernelFilterEnabled_eq (m : FilterCriteriaModel) (transportSec : SelectionEntry)
    (ht : m.mRootItem.child Category.TRANSPORT.toInt = some transportSec) :
    m.isKernelFilterEnabled =
      some (transportSec.mChildItems.any
        (fun c => decide (c.mData = .string "kernel") && c.mSelected)) := by
  unfold isKernelFilterEnabled
  rw [ht]
  simp only [SelectionEntry.childCount]
  rw [kernelLoop_eq transportSec _ 0 (by omega)]
  simp only [List.drop_zero]

/-- The accessors on a freshly rebuilt tree. -/
theorem priorityFilter_rebuilt (h : Host) (units exes : List String) (j0 : JournalRef) :
    priorityFilter ⟨j0, rebuiltTree h units exes⟩ = some 5 := rfl

theorem isKernelFilterEnabled_rebuilt (h : Host) (units exes : List String) (j0 : JournalRef) :
    isKernelFilterEnabled ⟨j0, rebuiltTree h units exes⟩ = some false := rfl

theorem systemdUnitFilter_rebuilt (h : Host) (units exes : List String) (j0 : JournalRef) :
    systemdUnitFilter ⟨j0, rebuiltTree h units exes⟩ = some [] := by
  have h0 : (unitSection h units).mChildItems.filter (fun c => c.mSelected) = [] := by
    rw [List.filter_eq_nil_iff]
    intro a ha
    simp only [unitSection, SelectionEntry.mChildItems, List.mem_map] at ha
    obtain ⟨x, _, rfl⟩ := ha
    simp [unitEntry, SelectionEntry.mSelected]
  rw [systemdUnitFilter_eq ⟨j0, rebuiltTree h units exes⟩ (unitSection h units) rfl, h0]
  rfl

theorem exeFilter_rebuilt (h : Host) (units exes : List String) (j0 : JournalRef) :
    exeFilter ⟨j0, rebuiltTree h units exes⟩ = some [] := by
  have h0 : (exeSection h exes).mChildItems.filter (fun c => c.mSelected) = [] := by
    rw [List.filter_eq_nil_iff]
    intro a ha
    simp only [exeSection, SelectionEntry.mChildItems, List.mem_map] at ha
    obtain ⟨x, _, rfl⟩ := ha
    simp [exeEntry, SelectionEntry.mSelected]
  rw [exeFilter_eq ⟨j0, rebuiltTree h units exes⟩ (exeSection h exes) rfl, h0]
  rfl

/-- The model a constructor or a change of journal returns holds a tree that `rebuildModel`
returned. -/
theorem create_some (h : Host) (m : FilterCriteriaModel) (hm : create h = some m) :
    m.mJournal = .system ∧ rebuildModel h .system = some m.mRootItem := by
  unfold create at hm
  cases h0 : rebuildModel h .null with
  | none => rw [h0] at hm; cases hm
  | some r0 =>
    cases h1 : rebuildModel h .system with
    | none => rw [h0, h1] at hm; cases hm
    | some root =>
      rw [h0, h1] at hm
      simp only [Option.some.injEq] at hm
      subst hm
      exact ⟨rfl, rfl⟩

theorem createAt_some (h : Host) (path : String) (m : FilterCriteriaModel)
    (hm : createAt h path = some m) :
    m.mJournal = .atPath path ∧ rebuildModel h (.atPath path) = some m.mRootItem := by
  unfold createAt at hm
  cases h0 : rebuildModel h .null with
  | none => rw [h0] at hm; cases hm
  | some r0 =>
    cases h1 : rebuildModel h (.atPath path) with
    | none => rw [h0, h1] at hm; cases hm
    | some root =>
      rw [h0, h1] at hm
      simp only [Option.some.injEq] at hm
      subst hm
      exact ⟨rfl, rfl⟩

theorem setJournaldPath_some (h : Host) (m : FilterCriteriaModel) (path : String)
    (r : Bool × FilterCriteriaModel) (hr : setJournaldPath h m path = some r) :
    r.1 = h.isValid (.atPath path) ∧ r.2.mJournal = .atPath path ∧
      rebuildModel h (.atPath path) = some r.2.mRootItem := by
  simp only [setJournaldPath] at hr
  cases h1 : rebuildModel h (.atPath path) with
  | none => rw [h1] at hr; cases hr
  | some root =>
    rw [h1] at hr
    simp only [Option.some.injEq] at hr
    subst hr
    exact ⟨rfl, rfl, rfl⟩

theorem setJournaldPath_eq (h : Host) (m : FilterCriteriaModel) (path : String)
    (root : SelectionEntry) (hr : rebuildModel h (.atPath path) = some root) :
    setJournaldPath h m path = some (h.isValid (.atPath path), ⟨.atPath path, root⟩) := by
  simp only [setJournaldPath, hr]

theorem setSystemJournal_some (h : Host) (m m1 : FilterCriteriaModel)
    (hm : setSystemJournal h m = some m1) :
    m1.mJournal = .system ∧ rebuildModel h .system = some m1.mRootItem := by
  unfold setSystemJournal at hm
  cases h1 : rebuildModel h .system with
  | none => rw [h1] at hm; cases hm
  | some root =>
    rw [h1] at hm
    simp only [Option.some.injEq] at hm
    subst hm
    exact ⟨rfl, rfl⟩

/-- The accessors on every tree that `rebuildModel` returns. -/
theorem accessors_of_rebuildModel (h : Host) (j j0 : JournalRef) (root : SelectionEntry)
    (hr : rebuildModel h j = some root) :
    priorityFilter ⟨j0, root⟩ = some 5 ∧ systemdUnitFilter ⟨j0, root⟩ = some [] ∧
      exeFilter ⟨j0, root⟩ = some [] ∧ isKernelFilterEnabled ⟨j0, root⟩ = some false := by
  obtain ⟨units, exes, _, _, rfl⟩ := rebuildModel_some h j root hr
  exact ⟨priorityFilter_rebuilt h units exes j0, systemdUnitFilter_rebuilt h units exes j0,
    exeFilter_rebuilt h units exes j0, isKernelFilterEnabled_rebuilt h units exes j0⟩

end FilterCriteriaModel

/-! ## The selected units and executables -/

open FilterCriteriaModel in
/-- C1: in every state whose Unit and Process sections exist, `systemdUnitFilter()` is the list,
in child order, of the data strings of exactly the selected children of the Unit section, and
`exeFilter()` is the same for the Process section; each list is empty iff no child of its
section is selected. -/
theorem systemdUnitFilter_exeFilter_selected_children (m : FilterCriteriaModel)
    (unitSec exeSec : SelectionEntry)
    (hu : m.mRootItem.child Category.SYSTEMD_UNIT.toInt = some unitSec)
    (he : m.mRootItem.child Category.EXE.toInt = some exeSec) :
    m.systemdUnitFilter =
        some ((unitSec.mChildItems.filter (fun c => c.mSelected)).map (fun c => c.mData.toString)) ∧
      m.exeFilter =
        some ((exeSec.mChildItems.filter (fun c => c.mSelected)).map (fun c => c.mData.toString)) ∧
      (m.systemdUnitFilter = some [] ↔ ∀ c ∈ unitSec.mChildItems, c.mSelected = false) ∧
      (m.exeFilter = some [] ↔ ∀ c ∈ exeSec.mChildItems, c.mSelected = false) := by
  refine ⟨systemdUnitFilter_eq m unitSec hu, exeFilter_eq m exeSec he, ?_, ?_⟩
  · rw [systemdUnitFilter_eq m unitSec hu]
    simp [List.filter_eq_nil_iff]
  · rw [exeFilter_eq m exeSec he]
    simp [List.filter_eq_nil_iff]

/-- Witness for C1 on `exampleModel`: only `a.service` is selected, no executable is. -/
theorem systemdUnitFilter_exeFilter_selected_children_witness :
    exampleModel.mRootItem.child Category.SYSTEMD_UNIT.toInt = some exampleUnitSection ∧
      exampleModel.mRootItem.child Category.EXE.toInt = some (exeSection exampleHost ["/bin/x", "/bin/y"]) ∧
      exampleModel.systemdUnitFilter = some ["a.service"] ∧
      exampleModel.exeFilter = some [] :=
  ⟨rfl, rfl,
    (systemdUnitFilter_exeFilter_selected_children exampleModel exampleUnitSection
      (exeSection exampleHost ["/bin/x", "/bin/y"]) rfl rfl).1,
    (systemdUnitFilter_exeFilter_selected_children exampleModel exampleUnitSection
      (exeSection exampleHost ["/bin/x", "/bin/y"]) rfl rfl).2.1⟩

/-! ## What `setData` leaves alone -/

namespace SelectionEntry

theorem setData_label (e : SelectionEntry) (value : QVariant) (role : Roles) :
    label (e.setData value role).2 = label e := by
  cases e with
  | mk t d c s cs =>
    simp only [setData]
    split <;> rfl

theorem setData_mChildItems (e : SelectionEntry) (value : QVariant) (role : Roles) :
    (e.setData value role).2.mChildItems = e.mChildItems := by
  cases e with
  | mk t d c s cs =>
    simp only [setData]
    split <;> rfl

theorem setChild_label (p : SelectionEntry) (row : Nat) (e : SelectionEntry) :
    label (p.setChild row e) = label p := by
  cases p; rfl

theorem setChild_mChildItems (p : SelectionEntry) (row : Nat) (e : SelectionEntry) :
    (p.setChild row e).mChildItems = p.mChildItems.set row e := by
  cases p; rfl

end SelectionEntry

theorem map_set_of_getElem? {α β : Type} (f : α → β) (l : List α) (i : Nat) (a b : α)
    (h : l[i]? = some a) (hf : f b = f a) : (l.set i b).map f = l.map f := by
  apply List.ext_getElem?
  intro n
  simp only [List.getElem?_map, List.getElem?_set]
  by_cases hn : i = n
  · subst hn
    have hlt : i < l.length := by
      rcases Nat.lt_or_ge i l.length with h1 | h1
      · exact h1
      · rw [List.getElem?_eq_none h1] at h; cases h
    simp [hlt, h, hf]
  · simp [hn]

theorem skeleton_setChild (root s s1 : SelectionEntry) (k : Nat)
    (hk : root.mChildItems[k]? = some s) (hl : label s1 = label s)
    (hc : s1.mChildItems.map label = s.mChildItems.map label) :
    skeleton (root.setChild k s1) = skeleton root := by
  unfold skeleton
  rw [SelectionEntry.setChild_mChildItems]
  exact map_set_of_getElem? _ _ _ s s1 hk (by rw [hl, hc])

theorem replaceAt_skeleton (root : SelectionEntry) :
    ∀ (up : List Nat) (row : Nat) (p p1 : SelectionEntry),
      entryAt root (row :: up) = some p → label p1 = label p →
      p1.mChildItems.map label = p.mChildItems.map label →
      skeleton (replaceAt root (row :: up) p1) = skeleton root := by
  intro up
  induction up with
  | nil =>
    intro row p p1 hp hl hc
    simp only [entryAt, SelectionEntry.child_natCast] at hp
    simp only [replaceAt, entryAt]
    exact skeleton_setChild root p p1 row hp hl hc
  | cons r2 up2 ih =>
    intro row p p1 hp hl hc
    cases hq : entryAt root (r2 :: up2) with
    | none =>
      rw [entryAt, hq] at hp
      cases hp
    | some q =>
      rw [entryAt, hq] at hp
      simp only [SelectionEntry.child_natCast] at hp
      rw [replaceAt, hq]
      simp only
      apply ih r2 q (q.setChild row p1) hq (SelectionEntry.setChild_label _ _ _)
      rw [SelectionEntry.setChild_mChildItems]
      exact map_set_of_getElem? _ _ _ p p1 hp (by
        have := congrArg (fun x => x) hl
        exact hl)

/-- `setData` always returns, and the tree it leaves has the labels of the tree it found. -/
theorem setDataTree_skeleton :
    ∀ (index : QModelIndex) (root : SelectionEntry) (value : QVariant) (role : Roles),
      ∃ res root1, setDataTree index root value role = some (res, root1) ∧
        skeleton root1 = skeleton root := by
  intro index
  induction index with
  | nil => intro root value role; exact ⟨false, root, rfl, rfl⟩
  | cons row up ih =>
    intro root value role
    cases hip : internalPointer root (row :: up) with
    | none => exact ⟨false, root, by simp only [setDataTree, hip], rfl⟩
    | some entry =>
      by_cases heq : value.equals (entry.data role) = true
      · exact ⟨true, root, by simp only [setDataTree, hip, heq, if_true], rfl⟩
      · have hsk : skeleton (replaceAt root (row :: up) (entry.setData value role).2) =
            skeleton root :=
          replaceAt_skeleton root up row entry _ hip (SelectionEntry.setData_label _ _ _)
            (by rw [SelectionEntry.setData_mChildItems])
        obtain ⟨rT, rootT, hT, hskT⟩ :=
          ih (replaceAt root (row :: up) (entry.setData value role).2) (.bool true) .SELECTED
        have hF : ∃ rootF,
            (match internalPointer (replaceAt root (row :: up) (entry.setData value role).2) up with
              | some parent =>
                match hasSelectedSiblingLoop parent parent.childCount 0 false with
                | some hasSelectedSibling =>
                  match setDataTree up (replaceAt root (row :: up) (entry.setData value role).2)
                      (.bool hasSelectedSibling) .SELECTED with
                  | some (_, root2) => some ((entry.setData value role).1, root2)
                  | none => none
                | none => none
              | none => some ((entry.setData value role).1,
                  replaceAt root (row :: up) (entry.setData value role).2)) =
              some ((entry.setData value role).1, rootF) ∧
            skeleton rootF = skeleton root := by
          cases hpar : internalPointer (replaceAt root (row :: up) (entry.setData value role).2) up with
          | none => exact ⟨_, rfl, hsk⟩
          | some parent =>
            obtain ⟨r2, root2, h2, hsk2⟩ :=
              ih (replaceAt root (row :: up) (entry.setData value role).2)
                (.bool (false || (parent.mChildItems.drop 0).any (fun c => c.mSelected))) .SELECTED
            refine ⟨root2, ?_, hsk2.trans hsk⟩
            simp only [SelectionEntry.childCount]
            rw [hasSelectedSiblingLoop_eq parent _ 0 false (by omega)]
            simp only [h2]
        obtain ⟨rootF, hFe, hskF⟩ := hF
        simp only [setDataTree, hip, heq]
        simp only [Bool.false_eq_true, if_false, hT, hFe]
        split
        · exact ⟨_, _, rfl, hsk⟩
        · split
          · split
            · exact ⟨_, _, rfl, hskT.trans hsk⟩
            · exact ⟨_, _, rfl, hskF⟩
          · split
            · split
              · exact ⟨_, _, rfl, hskT.trans hsk⟩
              · exact ⟨_, _, rfl, hskF⟩
            · split
              · exact ⟨_, _, rfl, hsk⟩
              · exact ⟨_, _, rfl, hsk⟩

theorem applyCalls_skeleton :
    ∀ (calls : List SetDataCall) (m : FilterCriteriaModel),
      ∃ m1, m.applyCalls calls = some m1 ∧ skeleton m1.mRootItem = skeleton m.mRootItem := by
  intro calls
  induction calls with
  | nil => intro m; exact ⟨m, rfl, rfl⟩
  | cons call rest ih =>
    intro m
    obtain ⟨res, root1, h1, hsk1⟩ := setDataTree_skeleton call.index m.mRootItem call.value call.role
    obtain ⟨m2, h2, hsk2⟩ := ih ⟨m.mJournal, root1⟩
    refine ⟨m2, ?_, hsk2.trans hsk1⟩
    simp only [FilterCriteriaModel.applyCalls, FilterCriteriaModel.setData, h1, h2]

/-- Trees with the same labels have the same sections, up to the selected flags. -/
theorem skeleton_section (a b sb : SelectionEntry) (k : Nat) (hsk : skeleton a = skeleton b)
    (hb : b.mChildItems[k]? = some sb) :
    ∃ sa, a.mChildItems[k]? = some sa ∧ label sa = label sb ∧
      sa.mChildItems.map label = sb.mChildItems.map label := by
  have h1 := congrArg (fun l => l[k]?) hsk
  simp only [skeleton, List.getElem?_map, hb, Option.map_some'] at h1
  cases ha : a.mChildItems[k]? with
  | none => rw [ha] at h1; cases h1
  | some sa =>
    rw [ha] at h1
    simp only [Option.map_some', Option.some.injEq, Prod.mk.injEq] at h1
    exact ⟨sa, rfl, h1.1, h1.2⟩

/-! ## Kernel messages -/

open FilterCriteriaModel in
/-- C2: in every state whose Transport section exists, `isKernelFilterEnabled()` returns true
iff that section has a child whose data is "kernel" and whose selected flag is true, and false
otherwise; every state reached by `setData` calls from a tree that `rebuildModel` returned has
a Transport section, so this holds there. Directly after `rebuildModel`, that is on every tree
it returns, and so after either constructor, after `setJournaldPath` and after
`setSystemJournal` whenever they return, `isKernelFilterEnabled()` returns false. -/
theorem isKernelFilterEnabled_iff_kernel_selected :
    (∀ (m : FilterCriteriaModel) (transportSec : SelectionEntry),
      m.mRootItem.child Category.TRANSPORT.toInt = some transportSec →
        (m.isKernelFilterEnabled = some true ↔
          ∃ c ∈ transportSec.mChildItems, c.mData = .string "kernel" ∧ c.mSelected = true) ∧
        (m.isKernelFilterEnabled = some false ↔
          ¬ ∃ c ∈ transportSec.mChildItems, c.mData = .string "kernel" ∧ c.mSelected = true)) ∧
    (∀ (h : Host) (j : JournalRef) (root : SelectionEntry) (calls : List SetDataCall)
      (m : FilterCriteriaModel),
      rebuildModel h j = some root → FilterCriteriaModel.applyCalls ⟨j, root⟩ calls = some m →
      ∃ transportSec, m.mRootItem.child Category.TRANSPORT.toInt = some transportSec ∧
        (m.isKernelFilterEnabled = some true ↔
          ∃ c ∈ transportSec.mChildItems, c.mData = .string "kernel" ∧ c.mSelected = true) ∧
        (m.isKernelFilterEnabled = some false ↔
          ¬ ∃ c ∈ transportSec.mChildItems, c.mData = .string "kernel" ∧ c.mSelected = true)) ∧
    (∀ (h : Host) (j : JournalRef) (root : SelectionEntry), rebuildModel h j = some root →
      isKernelFilterEnabled ⟨j, root⟩ = some false) ∧
    (∀ (h : Host) (m : FilterCriteriaModel), create h = some m →
      m.isKernelFilterEnabled = some false) ∧
    (∀ (h : Host) (path : String) (m : FilterCriteriaModel), createAt h path = some m →
      m.isKernelFilterEnabled = some false) ∧
    (∀ (h : Host) (m : FilterCriteriaModel) (path : String) (r : Bool × FilterCriteriaModel),
      setJournaldPath h m path = some r → r.2.isKernelFilterEnabled = some false) ∧
    (∀ (h : Host) (m m1 : FilterCriteriaModel), setSystemJournal h m = some m1 →
      m1.isKernelFilterEnabled = some false) := by
  have hiff : ∀ (m : FilterCriteriaModel) (transportSec : SelectionEntry),
      m.mRootItem.child Category.TRANSPORT.toInt = some transportSec →
        (m.isKernelFilterEnabled = some true ↔
          ∃ c ∈ transportSec.mChildItems, c.mData = .string "kernel" ∧ c.mSelected = true) ∧
        (m.isKernelFilterEnabled = some false ↔
          ¬ ∃ c ∈ transportSec.mChildItems, c.mData = .string "kernel" ∧ c.mSelected = true) := by
    intro m t ht
    rw [isKernelFilterEnabled_eq m t ht]
    constructor
    · simp [List.any_eq_true]
    · simp [List.any_eq_false]
  refine ⟨hiff, ?_, ?_, ?_, ?_, ?_, ?_⟩
  · intro h j root calls m hr hm
    obtain ⟨units, exes, _, _, rfl⟩ := rebuildModel_some h j root hr
    obtain ⟨m0, hm0, hsk⟩ := applyCalls_skeleton calls ⟨j, rebuiltTree h units exes⟩
    rw [hm] at hm0
    cases hm0
    obtain ⟨t, ht, _, _⟩ := skeleton_section m.mRootItem (rebuiltTree h units exes)
      (transportSection h) 0 hsk rfl
    have hchild : m.mRootItem.child Category.TRANSPORT.toInt = some t := by
      have := SelectionEntry.child_natCast m.mRootItem 0
      rw [← ht, ← this]
      rfl
    exact ⟨t, hchild, hiff m t hchild⟩
  · intro h j root hr
    exact (accessors_of_rebuildModel h j j root hr).2.2.2
  · intro h m hm
    obtain ⟨_, hr⟩ := create_some h m hm
    exact (accessors_of_rebuildModel h .system m.mJournal m.mRootItem hr).2.2.2
  · intro h path m hm
    obtain ⟨_, hr⟩ := createAt_some h path m hm
    exact (accessors_of_rebuildModel h _ m.mJournal m.mRootItem hr).2.2.2
  · intro h m path r hr
    obtain ⟨_, _, hr1⟩ := setJournaldPath_some h m path r hr
    exact (accessors_of_rebuildModel h _ r.2.mJournal r.2.mRootItem hr1).2.2.2
  · intro h m m1 hm
    obtain ⟨_, hr⟩ := setSystemJournal_some h m m1 hm
    exact (accessors_of_rebuildModel h _ m1.mJournal m1.mRootItem hr).2.2.2

open FilterCriteriaModel in
/-- Witness for C2: `exampleModel`, whose kernel entry is selected, answers true, and the model
constructed for `exampleHost` exists and answers false. -/
theorem isKernelFilterEnabled_iff_kernel_selected_witness :
    exampleModel.isKernelFilterEnabled = some true ∧
      ∃ m, create exampleHost = some m ∧ m.isKernelFilterEnabled = some false :=
  ⟨((isKernelFilterEnabled_iff_kernel_selected.1 exampleModel
      (.mk "Transport" .invalid .TRANSPORT false
        [.mk "Kernel" (.string "kernel") .TRANSPORT true []]) rfl).1).mpr
    ⟨.mk "Kernel" (.string "kernel") .TRANSPORT true [], List.mem_singleton.mpr rfl, rfl, rfl⟩,
    _, rfl, isKernelFilterEnabled_iff_kernel_selected.2.2.2.1 exampleHost _ rfl⟩

/-! ## The Priority section after a rebuild -/

open FilterCriteriaModel in
/-- C9: directly after `rebuildModel`, that is on every tree it returns, the Priority section
has exactly 8 children; child `i` has the decimal string of `i` as data and
`mapPriorityToString(i)` as label; exactly the child with `i = 5` is selected, and
`priorityFilter()` returns 5. Either constructor, `setJournaldPath` and `setSystemJournal`
leave such a tree whenever they return, and `priorityFilter()` returns 5 then. -/
theorem rebuildModel_priority_section (h : Host) :
    (∀ (j : JournalRef) (root : SelectionEntry), rebuildModel h j = some root →
      ∃ prioSec, root.child Category.PRIORITY.toInt = some prioSec ∧
        prioSec.childCount = 8 ∧
        prioSec.mChildItems.map (fun c => c.mData) =
          [.string "0", .string "1", .string "2", .string "3", .string "4", .string "5",
            .string "6", .string "7"] ∧
        (∀ i : Nat, i < 8 → ∃ c, prioSec.child i = some c ∧
          c.mData = .string (QString.number i) ∧ c.mText = mapPriorityToString h i ∧
          (c.mSelected = true ↔ i = 5)) ∧
        priorityFilter ⟨j, root⟩ = some 5) ∧
    (∀ m : FilterCriteriaModel, create h = some m →
      rebuildModel h .system = some m.mRootItem ∧ m.priorityFilter = some 5) ∧
    (∀ (path : String) (m : FilterCriteriaModel), createAt h path = some m →
      rebuildModel h (.atPath path) = some m.mRootItem ∧ m.priorityFilter = some 5) ∧
    (∀ (m : FilterCriteriaModel) (path : String) (r : Bool × FilterCriteriaModel),
      setJournaldPath h m path = some r →
      rebuildModel h (.atPath path) = some r.2.mRootItem ∧ r.2.priorityFilter = some 5) ∧
    (∀ m m1 : FilterCriteriaModel, setSystemJournal h m = some m1 →
      rebuildModel h .system = some m1.mRootItem ∧ m1.priorityFilter = some 5) := by
  refine ⟨?_, ?_, ?_, ?_, ?_⟩
  · intro j root hr
    obtain ⟨units, exes, _, _, rfl⟩ := rebuildModel_some h j root hr
    refine ⟨prioritySection h, rfl, rfl, rfl, ?_, rfl⟩
    intro i hi
    interval_cases i
    all_goals refine ⟨_, rfl, rfl, rfl, ?_⟩
    all_goals first
      | exact ⟨fun _ => rfl, fun _ => rfl⟩
      | exact ⟨fun hh => Bool.noConfusion (show (false : Bool) = true from hh),
          fun hh => absurd hh (by decide)⟩
  · intro m hm
    obtain ⟨_, hr⟩ := create_some h m hm
    exact ⟨hr, (accessors_of_rebuildModel h .system m.mJournal m.mRootItem hr).1⟩
  · intro path m hm
    obtain ⟨_, hr⟩ := createAt_some h path m hm
    exact ⟨hr, (accessors_of_rebuildModel h _ m.mJournal m.mRootItem hr).1⟩
  · intro m path r hr
    obtain ⟨_, _, hr1⟩ := setJournaldPath_some h m path r hr
    exact ⟨hr1, (accessors_of_rebuildModel h _ r.2.mJournal r.2.mRootItem hr1).1⟩
  · intro m m1 hm
    obtain ⟨_, hr⟩ := setSystemJournal_some h m m1 hm
    exact ⟨hr, (accessors_of_rebuildModel h _ m1.mJournal m1.mRootItem hr).1⟩

open FilterCriteriaModel in
/-- Witness for C9: `rebuildModel` returns for the system journal of `exampleHost`, and the
constructed model answers 5. -/
theorem rebuildModel_priority_section_witness :
    ∃ root m, rebuildModel exampleHost .system = some root ∧
      priorityFilter ⟨.system, root⟩ = some 5 ∧
      create exampleHost = some m ∧ m.priorityFilter = some 5 := by
  obtain ⟨prioSec, _, _, _, _, h5⟩ :=
    (rebuildModel_priority_section exampleHost).1 .system _ rfl
  exact ⟨_, _, rfl, h5, rfl,
    ((rebuildModel_priority_section exampleHost).2.1 _ rfl).2⟩

/-! ## Opening a journal that is not valid -/

/-- C3, counterexample: `/missing` is not a valid journal of `exampleHost`, and
`BootModel::setJournaldPath` on it changes what `journaldPath()` returns (from the empty path
of the freshly constructed model to `/missing`). -/
theorem bootModel_setJournaldPath_invalid_changes_journaldPath :
    exampleHost.isValid (.atPath "/missing") = false ∧
      (BootModel.setJournaldPath exampleHost (BootModel.create exampleHost) "/missing").1 = false ∧
      (BootModel.create exampleHost).journaldPath = "" ∧
      (BootModel.setJournaldPath exampleHost (BootModel.create exampleHost)
        "/missing").2.journaldPath = "/missing" ∧
      (BootModel.setJournaldPath exampleHost (BootModel.create exampleHost)
        "/missing").2.journaldPath ≠ (BootModel.create exampleHost).journaldPath := by
  refine ⟨rfl, rfl, rfl, rfl, ?_⟩
  decide

/-- C3, amended: for every path whose journal fails the validity check,
`BootModel::setJournaldPath(path)` returns false and leaves the boot list untouched, so
`rowCount()` and `bootId(r)` for every row `r` are the same as before the call, while
`journaldPath()` returns the new path. -/
theorem bootModel_setJournaldPath_invalid (h : Host) (m : BootModel) (path : String)
    (hv : h.isValid (.atPath path) = false) :
    (BootModel.setJournaldPath h m path).1 = false ∧
      (BootModel.setJournaldPath h m path).2.mBootInfo = m.mBootInfo ∧
      (BootModel.setJournaldPath h m path).2.rowCount = m.rowCount ∧
      (∀ row : Int, (BootModel.setJournaldPath h m path).2.bootId row = m.bootId row) ∧
      (BootModel.setJournaldPath h m path).2.journaldPath = path := by
  have h1 : BootModel.setJournaldPath h m path =
      (false, { m with mJournaldPath := path, mJournal := .atPath path }) := by
    simp only [BootModel.setJournaldPath, hv, Bool.false_eq_true, if_false]
  rw [h1]
  exact ⟨rfl, rfl, rfl, fun _ => rfl, rfl⟩

/-- Witness for the amended C3 on the model of the system journal of `exampleHost`. -/
theorem bootModel_setJournaldPath_invalid_witness :
    exampleHost.isValid (.atPath "/missing") = false ∧
      (BootModel.setJournaldPath exampleHost (BootModel.create exampleHost) "/missing").2.rowCount
        = 2 ∧
      (BootModel.setJournaldPath exampleHost (BootModel.create exampleHost)
        "/missing").2.journaldPath = "/missing" :=
  ⟨rfl,
    (bootModel_setJournaldPath_invalid exampleHost (BootModel.create exampleHost) "/missing"
      rfl).2.2.1,
    (bootModel_setJournaldPath_invalid exampleHost (BootModel.create exampleHost) "/missing"
      rfl).2.2.2.2⟩

open FilterCriteriaModel in
/-- C4, counterexample: on the model of the system journal of `exampleHost`, after priority 3
has been selected instead of 5 and the unit `a.service` has been selected,
`setJournaldPath("/missing")` returns false for the invalid journal and resets the tree:
`priorityFilter()` goes from 3 back to 5 and `systemdUnitFilter()` from `a.service` to
empty. -/
theorem filterCriteriaModel_setJournaldPath_invalid_resets :
    ∃ m r,
      (create exampleHost).bind (fun m0 => m0.applyCalls
        [⟨[3, 1], .bool true, .SELECTED⟩, ⟨[5, 1], .bool false, .SELECTED⟩,
          ⟨[0, 2], .bool true, .SELECTED⟩]) = some m ∧
      exampleHost.isValid (.atPath "/missing") = false ∧
      setJournaldPath exampleHost m "/missing" = some r ∧
      r.1 = false ∧
      m.priorityFilter = some 3 ∧ r.2.priorityFilter = some 5 ∧
      m.systemdUnitFilter = some ["a.service"] ∧ r.2.systemdUnitFilter = some [] :=
  ⟨_, _, rfl, rfl, rfl, rfl, rfl, rfl, rfl, rfl⟩

open FilterCriteriaModel in
/-- C4, amended: for every path whose journal fails the validity check and for which
`rebuildModel` returns a tree, `FilterCriteriaModel::setJournaldPath(path)` returns false and
replaces the filter-choice tree by that tree, the one `rebuildModel` builds for the new
journal, whatever was selected before: afterwards `priorityFilter()` is 5,
`systemdUnitFilter()` and `exeFilter()` are empty and `isKernelFilterEnabled()` is false. -/
theorem filterCriteriaModel_setJournaldPath_invalid (h : Host) (m : FilterCriteriaModel)
    (path : String) (root : SelectionEntry) (hv : h.isValid (.atPath path) = false)
    (hr : rebuildModel h (.atPath path) = some root) :
    ∃ m1, setJournaldPath h m path = some (false, m1) ∧
      m1.mRootItem = root ∧
      rebuildModel h (.atPath path) = some m1.mRootItem ∧
      m1.priorityFilter = some 5 ∧
      m1.systemdUnitFilter = some [] ∧
      m1.exeFilter = some [] ∧
      m1.isKernelFilterEnabled = some false := by
  have hacc := accessors_of_rebuildModel h (.atPath path) (.atPath path) root hr
  refine ⟨⟨.atPath path, root⟩, ?_, rfl, hr, hacc.1, hacc.2.1, hacc.2.2.1, hacc.2.2.2⟩
  rw [setJournaldPath_eq h m path root hr, hv]

open FilterCriteriaModel in
/-- Witness for the amended C4 on `exampleModel` and the invalid journal `/missing`, for which
`rebuildModel` returns. -/
theorem filterCriteriaModel_setJournaldPath_invalid_witness :
    exampleHost.isValid (.atPath "/missing") = false ∧
      ∃ m1, setJournaldPath exampleHost exampleModel "/missing" = some (false, m1) ∧
        rebuildModel exampleHost (.atPath "/missing") = some m1.mRootItem ∧
        m1.priorityFilter = some 5 ∧
        m1.systemdUnitFilter = some [] ∧
        m1.exeFilter = some [] ∧
        m1.isKernelFilterEnabled = some false := by
  obtain ⟨m1, h1, _, h3, h4, h5, h6, h7⟩ :=
    filterCriteriaModel_setJournaldPath_invalid exampleHost exampleModel "/missing"
      (rebuiltTree exampleHost [] []) rfl rfl
  exact ⟨rfl, m1, h1, h3, h4, h5, h6, h7⟩

/-! ## The range of the priority threshold -/

open FilterCriteriaModel in
/-- C5: from every tree that `rebuildModel` returns, every sequence of `setData` calls runs to
the end, and in the state it reaches `priorityFilter()` returns an integer in the range
0..7. -/
theorem priorityFilter_in_range_after_setData (h : Host) (j : JournalRef)
    (root : SelectionEntry) (calls : List SetDataCall) (hr : rebuildModel h j = some root) :
    ∃ m p, FilterCriteriaModel.applyCalls ⟨j, root⟩ calls = some m ∧
      m.priorityFilter = some p ∧ 0 ≤ p ∧ p ≤ 7 := by
  obtain ⟨units, exes, _, _, rfl⟩ := rebuildModel_some h j root hr
  obtain ⟨m, hm, hsk⟩ := applyCalls_skeleton calls ⟨j, rebuiltTree h units exes⟩
  obtain ⟨p, hp, _, hpc⟩ := skeleton_section m.mRootItem (rebuiltTree h units exes)
    (prioritySection h) 1 hsk rfl
  have hchild : m.mRootItem.child Category.PRIORITY.toInt = some p := by
    have := SelectionEntry.child_natCast m.mRootItem 1
    rw [← hp, ← this]
    rfl
  have hdata : p.mChildItems.map (fun c => c.mData) =
      [.string "0", .string "1", .string "2", .string "3", .string "4", .string "5",
        .string "6", .string "7"] := by
    have h1 := congrArg (List.map (fun l : String × QVariant × Category => l.2.1)) hpc
    simp only [List.map_map] at h1
    exact h1
  refine ⟨m, _, hm, priorityFilter_eq m p hchild, ?_⟩
  cases hf : p.mChildItems.find? (fun c => c.mSelected) with
  | none => exact ⟨le_refl _, by decide⟩
  | some c =>
    have hmem : c.mData ∈ p.mChildItems.map (fun c => c.mData) :=
      List.mem_map_of_mem _ (List.mem_of_find?_eq_some hf)
    rw [hdata] at hmem
    simp only [List.mem_cons, List.mem_singleton, List.not_mem_nil, or_false] at hmem
    rcases hmem with h0 | h0 | h0 | h0 | h0 | h0 | h0 | h0 <;>
      (simp only [h0]; decide)

open FilterCriteriaModel in
/-- Witness for C5 on the tree `rebuildModel` returns for the system journal of
`exampleHost`: after priority 3 has been selected and priority 5 deselected,
`priorityFilter()` is in the range. -/
theorem priorityFilter_in_range_after_setData_witness :
    ∃ root m p, rebuildModel exampleHost .system = some root ∧
      FilterCriteriaModel.applyCalls ⟨.system, root⟩
        [⟨[3, 1], .bool true, .SELECTED⟩, ⟨[5, 1], .bool false, .SELECTED⟩] = some m ∧
      m.priorityFilter = some p ∧ 0 ≤ p ∧ p ≤ 7 := by
  obtain ⟨m, p, h1, h2, h3, h4⟩ :=
    priorityFilter_in_range_after_setData exampleHost .system
      (rebuiltTree exampleHost ["a.service", "b.mount", "c.service"] ["/bin/x", "/bin/y"])
      [⟨[3, 1], .bool true, .SELECTED⟩, ⟨[5, 1], .bool false, .SELECTED⟩] rfl
  exact ⟨_, m, p, rfl, h1, h2, h3, h4⟩

/-! ## The selected flag of a section follows its children -/

theorem set_of_getElem? {α : Type} (l : List α) (i : Nat) (a : α) (h : l[i]? = some a) :
    l.set i a = l := by
  have := map_set_of_getElem? (fun x => x) l i a a h rfl
  simpa using this

theorem setChild_getElem? (root s : SelectionEntry) (k : Nat) (hk : k < root.mChildItems.length) :
    (root.setChild k s).mChildItems[k]? = some s := by
  rw [SelectionEntry.setChild_mChildItems, List.getElem?_set]
  simp [hk]

theorem setChild_setChild (root s1 s2 : SelectionEntry) (k : Nat) :
    (root.setChild k s1).setChild k s2 = root.setChild k s2 := by
  cases root
  simp [SelectionEntry.setChild]

theorem lt_of_getElem?_eq_some {α : Type} (l : List α) (i : Nat) (a : α) (h : l[i]? = some a) :
    i < l.length := by
  rcases Nat.lt_or_ge i l.length with h1 | h1
  · exact h1
  · rw [List.getElem?_eq_none h1] at h; cases h

theorem mSelected_mk (t : String) (d : QVariant) (c : Category) (s : Bool)
    (cs : List SelectionEntry) : (SelectionEntry.mk t d c s cs).mSelected = s := rfl

theorem mCategory_mk (t : String) (d : QVariant) (c : Category) (s : Bool)
    (cs : List SelectionEntry) : (SelectionEntry.mk t d c s cs).mCategory = c := rfl

theorem mChildItems_mk (t : String) (d : QVariant) (c : Category) (s : Bool)
    (cs : List SelectionEntry) : (SelectionEntry.mk t d c s cs).mChildItems = cs := rfl

theorem parentIndex_cons (row : Nat) (up : List Nat) : parentIndex (row :: up) = up := rfl

theorem internalPointer_nil (root : SelectionEntry) : internalPointer root [] = none := rfl

theorem replaceAt_singleton (root e : SelectionEntry) (k : Nat) :
    replaceAt root [k] e = root.setChild k e := rfl

/-- `setData` with a boolean for the role SELECTED on a section writes its flag, whatever the
category of the section is. -/
theorem setDataTree_section (root : SelectionEntry) (k : Nat) (t : String) (d : QVariant)
    (c : Category) (sel : Bool) (cs : List SelectionEntry) (b : Bool)
    (hk : root.mChildItems[k]? = some (.mk t d c sel cs)) :
    ∃ res, setDataTree [k] root (.bool b) .SELECTED =
      some (res, root.setChild k (.mk t d c b cs)) := by
  have hip : internalPointer root [k] = some (.mk t d c sel cs) := by
    simp only [internalPointer, entryAt, SelectionEntry.child_natCast, hk]
  by_cases hb : b = sel
  · subst hb
    refine ⟨true, ?_⟩
    have h1 : root.setChild k (.mk t d c b cs) = root := by
      cases root with
      | mk rt rd rc rs rcs =>
        simp only [SelectionEntry.setChild]
        rw [set_of_getElem? rcs k _ hk]
    rw [h1]
    simp [setDataTree, hip, equals_bool, SelectionEntry.data, SelectionEntry.mSelected]
  · refine ⟨true, ?_⟩
    have hne : ¬ (b = sel) := hb
    cases c <;> cases b <;>
      simp [setDataTree, hip, equals_bool, SelectionEntry.data, SelectionEntry.mSelected,
        SelectionEntry.setData, SelectionEntry.mCategory, QVariant.toBool, replaceAt_singleton,
        internalPointer_nil, hne]

/-- `setData` with a boolean for the role SELECTED on a child of category SYSTEMD_UNIT or EXE
writes the flag of the child and keeps the flag of its section equal to "some child is
selected". -/
theorem setDataTree_child (root sec ch : SelectionEntry) (k row : Nat) (v : Bool)
    (hk : root.mChildItems[k]? = some sec) (hrow : sec.mChildItems[row]? = some ch)
    (hcat : ch.mCategory = .SYSTEMD_UNIT ∨ ch.mCategory = .EXE)
    (hinv : sec.mSelected = sec.mChildItems.any (fun c => c.mSelected)) :
    ∃ root1 sec1, setDataTree [row, k] root (.bool v) .SELECTED = some (true, root1) ∧
      root1.mChildItems[k]? = some sec1 ∧
      (sec1.mChildItems[row]?).map (fun c => c.mSelected) = some v ∧
      sec1.mSelected = sec1.mChildItems.any (fun c => c.mSelected) := by
  have hklt := lt_of_getElem?_eq_some _ _ _ hk
  have hrlt := lt_of_getElem?_eq_some _ _ _ hrow
  cases sec with
  | mk st sd sc ssel scs =>
  cases ch with
  | mk ct cd cc csel ccs =>
  have hip : internalPointer root [row, k] = some (.mk ct cd cc csel ccs) := by
    simp only [internalPointer, entryAt, SelectionEntry.child_natCast, hk]
    exact hrow
  by_cases hv : v = csel
  · subst hv
    refine ⟨root, _, ?_, hk, ?_, hinv⟩
    · simp [setDataTree, hip, equals_bool, SelectionEntry.data, SelectionEntry.mSelected]
    · rw [hrow]; rfl
  · have hne : ¬ (v = csel) := hv
    have hrep : replaceAt root [row, k] (.mk ct cd cc v ccs) =
        root.setChild k (.mk st sd sc ssel (scs.set row (.mk ct cd cc v ccs))) := by
      simp only [replaceAt, entryAt, SelectionEntry.child_natCast, hk, SelectionEntry.setChild]
    have hk1 : (root.setChild k (.mk st sd sc ssel (scs.set row (.mk ct cd cc v ccs)))).mChildItems[k]?
        = some (.mk st sd sc ssel (scs.set row (.mk ct cd cc v ccs))) :=
      setChild_getElem? _ _ _ hklt
    have hip1 : internalPointer
        (root.setChild k (.mk st sd sc ssel (scs.set row (.mk ct cd cc v ccs)))) [k] =
        some (.mk st sd sc ssel (scs.set row (.mk ct cd cc v ccs))) := by
      simp only [internalPointer, entryAt, SelectionEntry.child_natCast, hk1]
    have hset : ∀ b : Bool, ∃ res,
        setDataTree [k] (root.setChild k (.mk st sd sc ssel (scs.set row (.mk ct cd cc v ccs))))
          (.bool b) .SELECTED =
        some (res, root.setChild k (.mk st sd sc b (scs.set row (.mk ct cd cc v ccs)))) := by
      intro b
      obtain ⟨res, hres⟩ := setDataTree_section _ k st sd sc ssel _ b hk1
      exact ⟨res, by rw [hres, setChild_setChild]⟩
    have hrow1 : ((scs.set row (SelectionEntry.mk ct cd cc v ccs))[row]?).map
        (fun c => c.mSelected) = some v := by
      simp only [SelectionEntry.mChildItems] at hrlt
      rw [List.getElem?_set]
      simp [hrlt, SelectionEntry.mSelected]
    cases v with
    | true =>
      obtain ⟨res, hres⟩ := hset true
      refine ⟨_, .mk st sd sc true (scs.set row (.mk ct cd cc true ccs)), ?_,
        setChild_getElem? _ _ _ hklt, hrow1, ?_⟩
      · rw [setDataTree]
        rcases hcat with hc | hc <;> simp only [SelectionEntry.mCategory] at hc <;> subst hc <;>
          simp [hip, equals_bool, SelectionEntry.data, SelectionEntry.mSelected,
            SelectionEntry.setData, SelectionEntry.mCategory, QVariant.toBool, hne, hrep, hres]
      · simp only [SelectionEntry.mSelected, SelectionEntry.mChildItems]
        symm
        rw [List.any_eq_true]
        simp only [SelectionEntry.mChildItems] at hrlt
        exact ⟨.mk ct cd cc true ccs, List.mem_iff_getElem?.mpr ⟨row, by
          rw [List.getElem?_set]; simp [hrlt]⟩, rfl⟩
    | false =>
      obtain ⟨res, hres⟩ := hset ((scs.set row (.mk ct cd cc false ccs)).any (fun c => c.mSelected))
      have hloop := hasSelectedSiblingLoop_eq
        (.mk st sd sc ssel (scs.set row (.mk ct cd cc false ccs)))
        (scs.set row (.mk ct cd cc false ccs)).length 0 false (by simp [SelectionEntry.mChildItems])
      simp only [List.drop_zero, Bool.false_or, mChildItems_mk, List.length_set] at hloop
      refine ⟨_, .mk st sd sc ((scs.set row (.mk ct cd cc false ccs)).any (fun c => c.mSelected))
        (scs.set row (.mk ct cd cc false ccs)), ?_, setChild_getElem? _ _ _ hklt, hrow1, rfl⟩
      rw [setDataTree]
      rcases hcat with hc | hc <;> simp only [SelectionEntry.mCategory] at hc <;> subst hc <;>
        simp [hip, equals_bool, SelectionEntry.data, mSelected_mk,
          SelectionEntry.setData, mCategory_mk, QVariant.toBool, hne, hrep, hres,
          hip1, SelectionEntry.childCount, mChildItems_mk, hloop]

theorem selected_eq_any_iff (sec : SelectionEntry) :
    sec.mSelected = sec.mChildItems.any (fun c => c.mSelected) ↔
      (sec.mSelected = true ↔ ∃ c ∈ sec.mChildItems, c.mSelected = true) := by
  rw [← List.any_eq_true (p := fun c : SelectionEntry => c.mSelected)]
  cases sec.mSelected <;> cases sec.mChildItems.any (fun c => c.mSelected) <;> simp

/-- In a tree with the labels of a rebuilt tree, the children of the Unit section have the
category SYSTEMD_UNIT and those of the Process section the category EXE. -/
theorem child_category_of_skeleton (h : Host) (units exes : List String)
    (root sec ch : SelectionEntry)
    (category : Category) (hcat : category = .SYSTEMD_UNIT ∨ category = .EXE)
    (hsk : skeleton root = skeleton (rebuiltTree h units exes))
    (hsec : root.mChildItems[category.toInt.toNat]? = some sec) (hch : ch ∈ sec.mChildItems) :
    ch.mCategory = category := by
  rcases hcat with hc | hc <;> subst hc
  · obtain ⟨sa, hsa, _, hlab⟩ := skeleton_section root (rebuiltTree h units exes)
      (unitSection h units) 2 hsk rfl
    have hsa2 : root.mChildItems[2]? = some sec := hsec
    rw [hsa2] at hsa
    cases hsa
    have hmem : label ch ∈ (unitSection h units).mChildItems.map label := by
      rw [← hlab]; exact List.mem_map_of_mem _ hch
    simp only [unitSection, mChildItems_mk, List.map_map, List.mem_map] at hmem
    obtain ⟨x, _, hx⟩ := hmem
    have := congrArg (fun l : String × QVariant × Category => l.2.2) hx
    exact this.symm
  · obtain ⟨sa, hsa, _, hlab⟩ := skeleton_section root (rebuiltTree h units exes)
      (exeSection h exes) 3 hsk rfl
    have hsa2 : root.mChildItems[3]? = some sec := hsec
    rw [hsa2] at hsa
    cases hsa
    have hmem : label ch ∈ (exeSection h exes).mChildItems.map label := by
      rw [← hlab]; exact List.mem_map_of_mem _ hch
    simp only [exeSection, mChildItems_mk, List.map_map, List.mem_map] at hmem
    obtain ⟨x, _, hx⟩ := hmem
    have := congrArg (fun l : String × QVariant × Category => l.2.2) hx
    exact this.symm

theorem toInt_toNat_cast (category : Category) :
    ((category.toInt.toNat : Nat) : Int) = category.toInt := by
  cases category <;> rfl

/-- C10: directly after `rebuildModel`, that is on every tree it returns, the selected flag
of the Unit section and of the Process section equals "at least one child is selected" (both
are false). In every state reached from such a tree by `setData` calls in which the flag of
such a section equals "at least one child is selected", `setData(childIndex, v, SELECTED)` on
any child of the section with any boolean `v` returns true, sets the flag of the child to `v`,
and afterwards the flag of the section is true iff at least one of its children is
selected. -/
theorem section_selected_follows_children (h : Host) (j : JournalRef) (root : SelectionEntry)
    (hr : rebuildModel h j = some root) :
    (∀ category : Category, category = .SYSTEMD_UNIT ∨ category = .EXE →
      ∃ sec, root.child category.toInt = some sec ∧
        (sec.mSelected = true ↔ ∃ c ∈ sec.mChildItems, c.mSelected = true)) ∧
    (∀ (calls : List SetDataCall) (category : Category) (m : FilterCriteriaModel)
      (sec : SelectionEntry) (row : Nat) (v : Bool),
      category = .SYSTEMD_UNIT ∨ category = .EXE →
      FilterCriteriaModel.applyCalls ⟨j, root⟩ calls = some m →
      m.mRootItem.child category.toInt = some sec →
      (sec.mSelected = true ↔ ∃ c ∈ sec.mChildItems, c.mSelected = true) →
      row < sec.childCount →
      ∃ m1 sec1 ch1,
        m.setData [row, category.toInt.toNat] (.bool v) .SELECTED = some (true, m1) ∧
        m1.mRootItem.child category.toInt = some sec1 ∧
        sec1.child row = some ch1 ∧ ch1.mSelected = v ∧
        (sec1.mSelected = true ↔ ∃ c ∈ sec1.mChildItems, c.mSelected = true)) := by
  obtain ⟨units, exes, _, _, rfl⟩ := rebuildModel_some h j root hr
  refine ⟨?_, ?_⟩
  · intro category hcat
    rcases hcat with hc | hc <;> subst hc
    · refine ⟨unitSection h units, rfl, ?_⟩
      constructor
      · intro hh; cases hh
      · rintro ⟨c, hc, hsel⟩
        simp only [unitSection, mChildItems_mk, List.mem_map] at hc
        obtain ⟨x, _, rfl⟩ := hc
        cases hsel
    · refine ⟨exeSection h exes, rfl, ?_⟩
      constructor
      · intro hh; cases hh
      · rintro ⟨c, hc, hsel⟩
        simp only [exeSection, mChildItems_mk, List.mem_map] at hc
        obtain ⟨x, _, rfl⟩ := hc
        cases hsel
  · intro calls category m sec row v hcat hm hsec hinv hrow
    obtain ⟨m0, hm0, hsk⟩ := applyCalls_skeleton calls ⟨j, rebuiltTree h units exes⟩
    rw [hm] at hm0
    cases hm0
    have hsec1 : m.mRootItem.mChildItems[category.toInt.toNat]? = some sec := by
      rw [← SelectionEntry.child_natCast, toInt_toNat_cast]; exact hsec
    have hrow1 : sec.mChildItems[row]? = some (sec.mChildItems.get ⟨row, hrow⟩) :=
      List.getElem?_eq_getElem hrow
    have hcc := child_category_of_skeleton h units exes m.mRootItem sec
      (sec.mChildItems.get ⟨row, hrow⟩) category hcat hsk hsec1 (List.get_mem _ _ _)
    obtain ⟨root1, sec1, hset, hk1, hch1, hinv1⟩ := setDataTree_child m.mRootItem sec
      (sec.mChildItems.get ⟨row, hrow⟩) category.toInt.toNat row v hsec1 hrow1
      (by rw [hcc]; exact hcat)
      ((selected_eq_any_iff sec).mpr hinv)
    cases hc1 : sec1.mChildItems[row]? with
    | none => rw [hc1] at hch1; cases hch1
    | some ch1 =>
      rw [hc1] at hch1
      refine ⟨⟨m.mJournal, root1⟩, sec1, ch1, ?_, ?_, ?_, ?_, (selected_eq_any_iff sec1).mp hinv1⟩
      · simp only [FilterCriteriaModel.setData, hset]
      · rw [← toInt_toNat_cast, SelectionEntry.child_natCast]; exact hk1
      · rw [SelectionEntry.child_natCast]; exact hc1
      · simpa using hch1

/-- Witness for C10: on the tree `rebuildModel` returns for the system journal of
`exampleHost`, selecting the first unit returns true, selects it, and selects the Unit
section. -/
theorem section_selected_follows_children_witness :
    ∃ root m1 sec1 ch1, rebuildModel exampleHost .system = some root ∧
      FilterCriteriaModel.setData ⟨.system, root⟩ [0, 2] (.bool true) .SELECTED = some (true, m1) ∧
      m1.mRootItem.child 2 = some sec1 ∧
      sec1.child 0 = some ch1 ∧ ch1.mSelected = true ∧
      (sec1.mSelected = true ↔ ∃ c ∈ sec1.mChildItems, c.mSelected = true) := by
  have hroot : rebuildModel exampleHost .system =
      some (rebuiltTree exampleHost ["a.service", "b.mount", "c.service"] ["/bin/x", "/bin/y"]) :=
    rfl
  obtain ⟨hpre, hstep⟩ := section_selected_follows_children exampleHost .system _ hroot
  obtain ⟨sec, hsec, hinv⟩ := hpre .SYSTEMD_UNIT (Or.inl rfl)
  have hs : unitSection exampleHost ["a.service", "b.mount", "c.service"] = sec :=
    Option.some.inj hsec
  subst hs
  obtain ⟨m1, sec1, ch1, h1, h2, h3, h4, h5⟩ :=
    hstep [] .SYSTEMD_UNIT
      ⟨.system, rebuiltTree exampleHost ["a.service", "b.mount", "c.service"] ["/bin/x", "/bin/y"]⟩
      (unitSection exampleHost ["a.service", "b.mount", "c.service"]) 0 true (Or.inl rfl) rfl
      hsec hinv (by decide)
  exact ⟨_, m1, sec1, ch1, hroot, h1, h2, h3, h4, h5⟩

/-! ## The filter predicate -/

/-- C6: for a filter with the unit, executable and boot allow-sets all empty, no priority
threshold and the kernel filter disabled, `matches` is true for every entry that is not a
kernel entry and false for every kernel entry. -/
theorem matches_unrestricted_filter (f : FilterSpec) (e : LogEntry)
    (hu : f.unitAllow = []) (hx : f.exeAllow = []) (hb : f.bootAllow = [])
    (hp : f.priorityThreshold = none) (hk : f.kernelEnabled = false) :
    (e.kernel = false → f.matches e = true) ∧ (e.kernel = true → f.matches e = false) := by
  constructor
  · intro he
    simp [FilterSpec.matches, FilterSpec.matchesAxes, hu, hx, hb, hp, hk, he]
  · intro he
    simp [FilterSpec.matches, hk, he]

/-- Witness for C6 on `emptyFilter`: an ordinary entry passes, a kernel entry does not. -/
theorem matches_unrestricted_filter_witness :
    emptyFilter.matches (exampleEntry 10 3 false) = true ∧
      emptyFilter.matches (exampleEntry 20 3 true) = false :=
  ⟨(matches_unrestricted_filter emptyFilter (exampleEntry 10 3 false) rfl rfl rfl rfl rfl).1 rfl,
    (matches_unrestricted_filter emptyFilter (exampleEntry 20 3 true) rfl rfl rfl rfl rfl).2 rfl⟩

/-! ## Fetching beyond an exhausted boundary -/

/-- C7: for every window state and each direction, if `canFetchMore(direction)` is false then
`fetchMore(direction)` returns 0 and leaves the state as it is, in particular `rowCount()` and
both boundary flags. -/
theorem fetchMore_noop_when_exhausted (s : WindowState) (direction : FetchDirection)
    (hc : s.canFetchMore direction = false) :
    (s.fetchMore direction).1 = 0 ∧
      (s.fetchMore direction).2.rowCount = s.rowCount ∧
      (s.fetchMore direction).2.moreAtHead = s.moreAtHead ∧
      (s.fetchMore direction).2.moreAtTail = s.moreAtTail ∧
      (s.fetchMore direction).2.window = s.window := by
  cases direction with
  | head =>
    have h1 : s.moreAtHead = false := hc
    simp [WindowState.fetchMore, h1]
  | tail =>
    have h1 : s.moreAtTail = false := hc
    simp [WindowState.fetchMore, h1]

/-- Witness for C7 on `exampleWindow`, which is exhausted at its tail. -/
theorem fetchMore_noop_when_exhausted_witness :
    exampleWindow.canFetchMore .tail = false ∧
      (exampleWindow.fetchMore .tail).1 = 0 ∧
      (exampleWindow.fetchMore .tail).2.rowCount = 2 :=
  ⟨rfl, (fetchMore_noop_when_exhausted exampleWindow .tail rfl).1,
    (fetchMore_noop_when_exhausted exampleWindow .tail rfl).2.1⟩

/-! ## The row nearest to a timestamp -/

theorem closestFrom_lt (target : Int) :
    ∀ (rest : List LogEntry) (row bestRow : Nat) (best : LogEntry), bestRow < row →
      closestFrom target rest row bestRow best < row + rest.length := by
  intro rest
  induction rest with
  | nil => intro row bestRow best hlt; simpa [closestFrom] using hlt
  | cons e rest ih =>
    intro row bestRow best hlt
    simp only [closestFrom, List.length_cons]
    split
    · have := ih (row + 1) row e (by omega)
      omega
    · have := ih (row + 1) bestRow best (by omega)
      omega

/-- C8: `closestIndexForData` returns -1 when the model has no rows, a valid row index
(`0 <= row < rowCount()`) whenever it has rows, and the row 0 of the only entry, for every
timestamp, when it has exactly one. -/
theorem closestIndexForData_valid :
    (∀ datetime : Int, closestIndexForData [] datetime = -1) ∧
    (∀ (rows : List LogEntry) (datetime : Int), rows ≠ [] →
      0 ≤ closestIndexForData rows datetime ∧
        closestIndexForData rows datetime < (rows.length : Int)) ∧
    (∀ (e : LogEntry) (datetime : Int), closestIndexForData [e] datetime = 0) := by
  refine ⟨fun _ => rfl, ?_, fun _ _ => rfl⟩
  intro rows datetime hne
  cases rows with
  | nil => exact absurd rfl hne
  | cons e rest =>
    have h1 := closestFrom_lt datetime rest 1 0 e (by omega)
    simp only [closestIndexForData, List.length_cons]
    constructor
    · exact Int.ofNat_nonneg _
    · push_cast
      omega

/-- Witness for C8 on the two rows of `exampleWindow`: the timestamp 21 is nearest to the
second row. -/
theorem closestIndexForData_valid_witness :
    exampleWindow.window ≠ [] ∧
      0 ≤ closestIndexForData exampleWindow.window 21 ∧
      closestIndexForData exampleWindow.window 21 < (exampleWindow.window.length : Int) :=
  ⟨by decide, closestIndexForData_valid.2.1 exampleWindow.window 21 (by decide)⟩

/-! ## Only service units are listed -/

/-- C12: after `rebuildModel`, that is on every tree it returns, both calls of `std::sort`
have returned, every child of the Unit section has a data string ending in ".service", and the
data of the children, in order, is the sorted list of the queried unit names (the list the
call of `std::sort` left) with exactly the names not ending in ".service" removed: a name is
among the children iff it is in the sorted list and ends in ".service", and the order of the
sorted list is kept. -/
theorem rebuildModel_unit_section_services (h : Host) (j : JournalRef) (root : SelectionEntry)
    (hr : rebuildModel h j = some root) :
    ∃ sortedUnits unitSec,
      h.sortCaseInsensitive (h.queryUnique j .SYSTEMD_UNIT) = some sortedUnits ∧
      root.child Category.SYSTEMD_UNIT.toInt = some unitSec ∧
      unitSec.mChildItems.map (fun c => c.mData) =
        (sortedUnits.filter (fun unit => QString.endsWith unit ".service")).map
          QVariant.string ∧
      (∀ c ∈ unitSec.mChildItems, ∃ unit, c.mData = .string unit ∧
        QString.endsWith unit ".service" = true ∧ ".service".data <:+ unit.data) ∧
      (∀ unit : String, QVariant.string unit ∈ unitSec.mChildItems.map (fun c => c.mData) ↔
        unit ∈ sortedUnits ∧ QString.endsWith unit ".service" = true) ∧
      List.Sublist (unitSec.mChildItems.map (fun c => c.mData.toString)) sortedUnits := by
  obtain ⟨units, exes, hu, _, rfl⟩ := rebuildModel_some h j root hr
  have hdata : (unitSection h units).mChildItems.map (fun c => c.mData) =
      (units.filter (fun unit => QString.endsWith unit ".service")).map QVariant.string := by
    simp only [unitSection, mChildItems_mk, List.map_map]
    rfl
  refine ⟨units, unitSection h units, hu, rfl, hdata, ?_, ?_, ?_⟩
  · intro c hc
    simp only [unitSection, mChildItems_mk, List.mem_map, List.mem_filter] at hc
    obtain ⟨unit, ⟨_, hs⟩, rfl⟩ := hc
    exact ⟨unit, rfl, hs, List.isSuffixOf_iff_suffix.mp hs⟩
  · intro unit
    rw [hdata]
    simp only [List.mem_map, List.mem_filter]
    constructor
    · rintro ⟨x, hx, hxu⟩
      injection hxu with hxu
      subst hxu
      exact hx
    · intro hx
      exact ⟨unit, hx, rfl⟩
  · have hstr : (unitSection h units).mChildItems.map (fun c => c.mData.toString) =
        units.filter (fun unit => QString.endsWith unit ".service") := by
      simp only [unitSection, mChildItems_mk, List.map_map]
      exact List.map_id _
    rw [hstr]
    exact List.filter_sublist _

/-- Witness for C12 on the system journal of `exampleHost`: of the three unit names the mount
unit is dropped. -/
theorem rebuildModel_unit_section_services_witness :
    ∃ root unitSec, rebuildModel exampleHost .system = some root ∧
      root.child Category.SYSTEMD_UNIT.toInt = some unitSec ∧
      unitSec.mChildItems.map (fun c => c.mData) =
        [.string "a.service", .string "c.service"] := by
  obtain ⟨sortedUnits, unitSec, h1, h2, h3, _⟩ :=
    rebuildModel_unit_section_services exampleHost .system
      (rebuiltTree exampleHost ["a.service", "b.mount", "c.service"] ["/bin/x", "/bin/y"]) rfl
  have hs : sortedUnits = ["a.service", "b.mount", "c.service"] := (Option.some.inj h1).symm
  subst hs
  exact ⟨_, unitSec, rfl, h2, h3⟩

/-! ## Repeating a call of `setData` -/

end KJournald
